import Mathlib

/-!
Verification development for the `vp_verify.py` reference verifier of the
Verified Provenance protocol.  The Python source is shallowly embedded:
JSON values become the inductive `Json`, the pure helper functions become
Lean functions of the same names, the network is an explicit fetch oracle,
and a Python exception escaping a function is modelled by `Except.error`.
-/

set_option maxHeartbeats 1000000

set_option maxRecDepth 100000

/-- JSON values as produced by Python's `json.loads`: objects are
association lists (insertion order, unique keys), numbers are modelled as
integers (no claim touches float payloads). -/
inductive Json where
  | null : Json
  | bool : Bool → Json
  | num : Int → Json
  | str : String → Json
  | arr : List Json → Json
  | obj : List (String × Json) → Json

/-- First binding of a key in a Python dict (JSON object keys are unique). -/
def lookupField : List (String × Json) → String → Option Json
  | [], _ => none
  | (k, v) :: rest, key => if k = key then some v else lookupField rest key

/-- Python `isinstance(v, dict)`. -/
def Json.isObj : Json → Bool
  | .obj _ => true
  | _ => false

/-- Python `isinstance(v, list)`. -/
def Json.isArr : Json → Bool
  | .arr _ => true
  | _ => false

/-- Python `d.get(key)` on a dict: `none` both when the key is absent (Python
returns `None`) and when the receiver is not a dict (we only call it on
dicts); a stored JSON `null` is returned as `some .null`. -/
def Json.get : Json → String → Option Json
  | .obj fs, key => lookupField fs key
  | _, _ => none

/-- Python `d.get(key, default)`. -/
def Json.getD (j : Json) (key : String) (dflt : Json) : Json :=
  (j.get key).getD dflt

/-- Python `key in d` for a dict. -/
def Json.hasKey (j : Json) (key : String) : Bool :=
  (j.get key).isSome

/-- Python truthiness of a JSON value. -/
def Json.truthy : Json → Bool
  | .null => false
  | .bool b => b
  | .num n => n != 0
  | .str s => s ≠ ""
  | .arr xs => !xs.isEmpty
  | .obj fs => !fs.isEmpty

/-- Truthiness of `d.get(key)` (absent key is `None`, hence falsy). -/
def truthyOpt : Option Json → Bool
  | none => false
  | some j => j.truthy

/-- Lowercase hex digit. -/
def hexDigit (n : Nat) : Char :=
  if n < 10 then Char.ofNat (48 + n) else Char.ofNat (87 + n)

mutual

/-- Python `repr` of a JSON value (reached only via `str()` of non-string
values; string escaping inside repr is not replicated, which no claim
exercises). -/
def pyRepr : Json → String
  | .null => "None"
  | .bool true => "True"
  | .bool false => "False"
  | .num n => toString n
  | .str s => "'" ++ s ++ "'"
  | .arr xs => "[" ++ String.intercalate ", " (pyReprList xs) ++ "]"
  | .obj fs => "\x7b" ++ String.intercalate ", " (pyReprFields fs) ++ "\x7d"
  termination_by structural j => j

/-- Python `repr` of the elements of a list. -/
def pyReprList : List Json → List String
  | [] => []
  | x :: rest => pyRepr x :: pyReprList rest
  termination_by structural l => l

/-- Python `repr` of the entries of a dict. -/
def pyReprFields : List (String × Json) → List String
  | [] => []
  | (k, v) :: rest => ("'" ++ k ++ "': " ++ pyRepr v) :: pyReprFields rest
  termination_by structural l => l

end

/-- Python `str()` of a JSON value. -/
def pyStr : Json → String
  | .str s => s
  | j => pyRepr j

/-- The whitespace characters stripped by Python `str.strip()`. -/
def isPySpace (c : Char) : Bool :=
  c = ' ' || c = '\t' || c = '\n' || c = '\r' || c = '\x0b' || c = '\x0c'

/-- Python `str.strip()`. -/
def pyStrip (s : String) : String :=
  String.mk (((s.data.dropWhile isPySpace).reverse.dropWhile isPySpace).reverse)

/-- JSON string escaping as done by `json.dumps(..., ensure_ascii=False)`:
quote, backslash and control characters are escaped, everything else is
passed through. -/
def jsonEscapeChar (c : Char) : String :=
  if c = '"' then "\\\""
  else if c = '\\' then "\\\\"
  else if c = '\n' then "\\n"
  else if c = '\r' then "\\r"
  else if c = '\t' then "\\t"
  else if c = '\x08' then "\\b"
  else if c = '\x0c' then "\\f"
  else if c.toNat < 32 then
    "\\u00" ++ String.mk [hexDigit (c.toNat / 16), hexDigit (c.toNat % 16)]
  else String.singleton c

/-- Escape a whole string. -/
def jsonEscape (s : String) : String :=
  String.join (s.data.map jsonEscapeChar)

/-- A JSON string literal. -/
def jsonQuote (s : String) : String :=
  "\"" ++ jsonEscape s ++ "\""

/-- Python string `<`: lexicographic comparison by code point (structural,
unlike core's iterator-based `String.ltb`, so it reduces definitionally). -/
def strLtB : List Char → List Char → Bool
  | [], [] => false
  | [], _ :: _ => true
  | _ :: _, [] => false
  | a :: as, b :: bs =>
    if a.toNat < b.toNat then true
    else if b.toNat < a.toNat then false
    else strLtB as bs

/-- Python string `<=` (`a <= b` iff `¬ (b < a)`). -/
def strLeB (a b : String) : Bool := !strLtB b.data a.data

/-- Sort the already-encoded object entries by key (Python string order is
byte/code-point lexicographic): `json.dumps(..., sort_keys=True)`
serializes entries in sorted key order; encoding the values first and then
sorting the encoded pairs is equivalent because JSON object keys are
unique.  `List.insertionSort` with a non-strict total preorder is a stable
sort, exactly like Python's sort (and it reduces definitionally, unlike
`List.mergeSort`). -/
def sortEncodedFields (l : List (String × String)) : List (String × String) :=
  l.insertionSort (fun a b => strLeB a.1 b.1 = true)

mutual

/-- Model of `json.dumps(value, ensure_ascii=False, separators=(",", ":"),
sort_keys=True)` from `canonical_json_bytes` (the UTF-8 bytes are taken
later, by `utf8Bytes`). -/
def canonicalJson : Json → String
  | .null => "null"
  | .bool true => "true"
  | .bool false => "false"
  | .num n => toString n
  | .str s => jsonQuote s
  | .arr xs => "[" ++ canonicalJsonList xs ++ "]"
  | .obj fs =>
      "\x7b" ++
        String.intercalate "," ((sortEncodedFields (canonicalJsonFields fs)).map (·.2))
        ++ "\x7d"
  termination_by structural j => j

/-- Comma-joined encodings of array elements. -/
def canonicalJsonList : List Json → String
  | [] => ""
  | [x] => canonicalJson x
  | x :: y :: rest => canonicalJson x ++ "," ++ canonicalJsonList (y :: rest)
  termination_by structural l => l

/-- Each object entry encoded as a `"key":value` fragment, paired with its
raw key for sorting. -/
def canonicalJsonFields : List (String × Json) → List (String × String)
  | [] => []
  | (k, v) :: rest => (k, jsonQuote k ++ ":" ++ canonicalJson v) :: canonicalJsonFields rest
  termination_by structural l => l

end

/-- UTF-8 encoding of one character. -/
def charUtf8 (c : Char) : List Nat :=
  let n := c.toNat
  if n < 128 then [n]
  else if n < 2048 then [192 ||| (n >>> 6), 128 ||| (n &&& 63)]
  else if n < 65536 then
    [224 ||| (n >>> 12), 128 ||| ((n >>> 6) &&& 63), 128 ||| (n &&& 63)]
  else
    [240 ||| (n >>> 18), 128 ||| ((n >>> 12) &&& 63),
     128 ||| ((n >>> 6) &&& 63), 128 ||| (n &&& 63)]

/-- Python `s.encode("utf-8")` as a byte list. -/
def utf8Bytes (s : String) : List Nat :=
  (s.data.map charUtf8).foldr (· ++ ·) []

/-- Truncate to a 32-bit word. -/
def toWord (x : Nat) : Nat := x % 4294967296

/-- Right rotation of a 32-bit word. -/
def rotr (n x : Nat) : Nat := toWord ((x >>> n) ||| (x <<< (32 - n)))

/-- SHA-256 round constants. -/
def sha256K : List Nat :=
  [1116352408, 1899447441, 3049323471, 3921009573, 961987163, 1508970993,
   2453635748, 2870763221, 3624381080, 310598401, 607225278, 1426881987,
   1925078388, 2162078206, 2614888103, 3248222580, 3835390401, 4022224774,
   264347078, 604807628, 770255983, 1249150122, 1555081692, 1996064986,
   2554220882, 2821834349, 2952996808, 3210313671, 3336571891, 3584528711,
   113926993, 338241895, 666307205, 773529912, 1294757372, 1396182291,
   1695183700, 1986661051, 2177026350, 2456956037, 2730485921, 2820302411,
   3259730800, 3345764771, 3516065817, 3600352804, 4094571909, 275423344,
   430227734, 506948616, 659060556, 883997877, 958139571, 1322822218,
   1537002063, 1747873779, 1955562222, 2024104815, 2227730452, 2361852424,
   2428436474, 2756734187, 3204031479, 3329325298]

/-- SHA-256 initial hash value. -/
def sha256Init : List Nat :=
  [1779033703, 3144134277, 1013904242, 2773480762,
   1359893119, 2600822924, 528734635, 1541459225]

/-- Big-endian 8-byte encoding of the bit length. -/
def bigEndian8 (n : Nat) : List Nat :=
  [56, 48, 40, 32, 24, 16, 8, 0].map (fun k => (n >>> k) &&& 255)

/-- SHA-256 message padding. -/
def sha256Pad (msg : List Nat) : List Nat :=
  let len := msg.length
  let zeros := (120 - ((len + 1) % 64)) % 64
  msg ++ 128 :: List.replicate zeros 0 ++ bigEndian8 (8 * len)

/-- Split into 64-byte blocks (the input length is a multiple of 64);
fuel-based so that it reduces definitionally. -/
def chunks64Go : Nat → List Nat → List (List Nat)
  | _, [] => []
  | 0, _ => []
  | fuel + 1, l@(_ :: _) => l.take 64 :: chunks64Go fuel (l.drop 64)

/-- Split into 64-byte blocks. -/
def chunks64 (l : List Nat) : List (List Nat) :=
  chunks64Go l.length l

/-- Big-endian 32-bit words of a byte block. -/
def bytesToWords : List Nat → List Nat
  | a :: b :: c :: d :: rest => (((a * 256 + b) * 256 + c) * 256 + d) :: bytesToWords rest
  | _ => []

/-- Message-schedule extension step: push words 16..63. -/
def sha256Extend : Nat → Array Nat → Array Nat
  | 0, w => w
  | n + 1, w =>
    let i := w.size
    let s0 :=
      let x := w.getD (i - 15) 0
      rotr 7 x ^^^ rotr 18 x ^^^ (x >>> 3)
    let s1 :=
      let x := w.getD (i - 2) 0
      rotr 17 x ^^^ rotr 19 x ^^^ (x >>> 10)
    sha256Extend n (w.push (toWord (w.getD (i - 16) 0 + s0 + w.getD (i - 7) 0 + s1)))

/-- One SHA-256 compression round; the state is the list `[a,b,c,d,e,f,g,h]`. -/
def sha256Round (st : List Nat) (k w : Nat) : List Nat :=
  match st with
  | [a, b, c, d, e, f, g, h] =>
    let s1 := rotr 6 e ^^^ rotr 11 e ^^^ rotr 25 e
    let ch := (e &&& f) ^^^ ((4294967295 ^^^ e) &&& g)
    let temp1 := toWord (h + s1 + ch + k + w)
    let s0 := rotr 2 a ^^^ rotr 13 a ^^^ rotr 22 a
    let maj := (a &&& b) ^^^ (a &&& c) ^^^ (b &&& c)
    let temp2 := toWord (s0 + maj)
    [toWord (temp1 + temp2), a, b, c, toWord (d + temp1), e, f, g]
  | other => other

/-- Compress one 64-byte block into the running hash. -/
def sha256Block (hsh : List Nat) (block : List Nat) : List Nat :=
  let w := sha256Extend 48 (Array.mk (bytesToWords block))
  let final := (List.zip sha256K w.toList).foldl (fun st kw => sha256Round st kw.1 kw.2) hsh
  (List.zip hsh final).map (fun p => toWord (p.1 + p.2))

/-- Eight lowercase hex digits of a 32-bit word. -/
def word8Hex (n : Nat) : String :=
  String.mk ((List.range 8).map (fun i => hexDigit ((n >>> (28 - 4 * i)) &&& 15)))

/-- Model of `hashlib.sha256(raw).hexdigest()`: SHA-256 (FIPS 180-4) of a byte
string, as 64 lowercase hex digits. -/
def sha256_hex (raw : List Nat) : String :=
  String.join (((chunks64 (sha256Pad raw)).foldl sha256Block sha256Init).map word8Hex)

/-- Remove a key from a dict (`evt.pop("event_hash", None)` after the deep
copy in `compute_event_hash`). -/
def eraseField : List (String × Json) → String → List (String × Json)
  | [], _ => []
  | (k, v) :: rest, key => if k = key then eraseField rest key else (k, v) :: eraseField rest key

/-- The function `compute_event_hash` (vp_verify.py lines 131-134): hash of the
canonical JSON of the event with its own `event_hash` field removed.  Only
ever called on dict events. -/
def compute_event_hash (fields : List (String × Json)) : String :=
  sha256_hex (utf8Bytes (canonicalJson (.obj (eraseField fields "event_hash"))))

/-- ASCII digit test by code point (reduces definitionally). -/
def isDigitB (c : Char) : Bool := 48 ≤ c.toNat && c.toNat ≤ 57

/-- Read exactly `n` ASCII digits, returning the value and the rest. -/
def readNDigits : Nat → Nat → List Char → Option (Nat × List Char)
  | 0, acc, l => some (acc, l)
  | n + 1, acc, c :: l =>
    if isDigitB c then readNDigits n (acc * 10 + (c.toNat - 48)) l else none
  | _ + 1, _, [] => none

/-- Expect one specific character. -/
def expectChar (c : Char) : List Char → Option (List Char)
  | d :: l => if d = c then some l else none
  | [] => none

/-- Leap year (proleptic Gregorian). -/
def isLeap (y : Nat) : Bool := y % 4 = 0 && (y % 100 ≠ 0 || y % 400 = 0)

/-- Days in a month. -/
def daysInMonth (y m : Nat) : Nat :=
  if m = 2 then (if isLeap y then 29 else 28)
  else if m = 4 || m = 6 || m = 9 || m = 11 then 30
  else 31

/-- Days between 1970-01-01 and a civil date (Hinnant's algorithm; all
intermediate divisions act on nonnegative operands for years ≥ 1). -/
def daysFromCivil (y m d : Int) : Int :=
  let y' := y - (if m ≤ 2 then 1 else 0)
  let era := y' / 400
  let yoe := y' - era * 400
  let doy := (153 * (m + (if m > 2 then -3 else 9)) + 2) / 5 + d - 1
  let doe := yoe * 365 + yoe / 4 - yoe / 100 + doy
  era * 146097 + doe - 719468

/-- Microseconds from 1-6+ fractional digits (Python truncates past 6). -/
def fracToMicro (ds : List Char) : Nat :=
  ((ds.take 6).map (fun c : Char => c.toNat - 48) ++ List.replicate (6 - ds.length) 0).foldl
    (fun acc d => acc * 10 + d) 0

/-- Parse a UTC-offset suffix: `none` = malformed, `some none` = absent
(naive datetime), `some (some v)` = offset of `v` microseconds.  Accepts
`Z`/`z` and `±HH`, `±HH:MM`, `±HHMM`, `±HH:MM:SS` with the ranges
`timezone` accepts. -/
def parseOffset : List Char → Option (Option Int)
  | [] => some none
  | ['Z'] => some (some 0)
  | ['z'] => some (some 0)
  | c :: rest =>
    if c = '+' || c = '-' then
      let sign : Int := if c = '-' then -1 else 1
      match readNDigits 2 0 rest with
      | none => none
      | some (hh, rest1) =>
        let mk : Nat → Nat → Option (Option Int) := fun mm ss =>
          if hh ≤ 23 && mm ≤ 59 && ss ≤ 59 then
            some (some (sign * (((hh * 3600 + mm * 60 + ss : Nat) : Int) * 1000000)))
          else none
        match rest1 with
        | [] => mk 0 0
        | ':' :: rest2 =>
          match readNDigits 2 0 rest2 with
          | none => none
          | some (mm, rest3) =>
            match rest3 with
            | [] => mk mm 0
            | ':' :: rest4 =>
              match readNDigits 2 0 rest4 with
              | some (ss, []) => mk mm ss
              | _ => none
            | _ => none
        | _ =>
          match readNDigits 2 0 rest1 with
          | some (mm, []) => mk mm 0
          | some (mm, rest2) =>
            match readNDigits 2 0 rest2 with
            | some (ss, []) => mk mm ss
            | _ => none
          | none => none
    else none

/-- Parse the time-of-day part (after the date separator), returning the
microseconds-within-day and the offset option. -/
def parseTimePart (l : List Char) : Option (Nat × Option Int) :=
  match readNDigits 2 0 l with
  | none => none
  | some (hh, rest) =>
    let finish : Nat → Nat → Nat → Nat → List Char → Option (Nat × Option Int) :=
      fun h mi s us tail =>
        if h ≤ 23 && mi ≤ 59 && s ≤ 59 then
          match parseOffset tail with
          | none => none
          | some off => some (((h * 3600 + mi * 60 + s) * 1000000 + us, off))
        else none
    match rest with
    | ':' :: rest1 =>
      match readNDigits 2 0 rest1 with
      | none => none
      | some (mi, rest2) =>
        match rest2 with
        | ':' :: rest3 =>
          match readNDigits 2 0 rest3 with
          | none => none
          | some (s, rest4) =>
            match rest4 with
            | sep :: rest5 =>
              if sep = '.' || sep = ',' then
                let digits := rest5.takeWhile isDigitB
                let tail := rest5.dropWhile isDigitB
                if digits.isEmpty then none
                else finish hh mi s (fracToMicro digits) tail
              else finish hh mi s 0 rest4
            | [] => finish hh mi s 0 []
        | _ => finish hh mi 0 0 rest2
    | _ => finish hh 0 0 0 rest

/-- Model of `datetime.fromisoformat` restricted to the extended format
`YYYY-MM-DD[{T,t, }HH[:MM[:SS[.ffffff]]]][offset]` (the only shapes the
repository produces and its documentation shows).  Returns the naive
wall-clock value in microseconds since 1970-01-01 together with the
parsed offset, or `none` for a malformed string. -/
def parseIsoDatetime (s : String) : Option (Int × Option Int) :=
  match readNDigits 4 0 s.data with
  | none => none
  | some (y, rest) =>
    match expectChar '-' rest with
    | none => none
    | some rest1 =>
      match readNDigits 2 0 rest1 with
      | none => none
      | some (m, rest2) =>
        match expectChar '-' rest2 with
        | none => none
        | some rest3 =>
          match readNDigits 2 0 rest3 with
          | none => none
          | some (d, rest4) =>
            if 1 ≤ y && 1 ≤ m && m ≤ 12 && 1 ≤ d && d ≤ daysInMonth y m then
              let dayMicros : Int := daysFromCivil (y : Int) (m : Int) (d : Int) * 86400000000
              match rest4 with
              | [] => some (dayMicros, none)
              | sep :: rest5 =>
                if sep = 'T' || sep = 't' || sep = ' ' then
                  match parseTimePart rest5 with
                  | none => none
                  | some (us, off) => some (dayMicros + (us : Int), off)
                else none
            else none

/-- Does the string end in a capital `Z`? (`text.endswith("Z")`). -/
def endsWithZ (s : String) : Bool :=
  match s.data.getLast? with
  | some c => c = 'Z'
  | none => false

/-- The function `parse_utc_or_die` (vp_verify.py lines 86-95): trailing `Z` is first
rewritten to `+00:00`; a parse failure raises
`invalid RFC3339 timestamp: ...`, a missing timezone raises
`timestamp must include timezone`; otherwise the instant is normalized to
UTC (here: microseconds since the epoch). -/
def parse_utc_or_die (text : String) : Except String Int :=
  let t := if endsWithZ text then String.mk (text.data.dropLast) ++ "+00:00" else text
  match parseIsoDatetime t with
  | none => .error ("invalid RFC3339 timestamp: " ++ t)
  | some (_, none) => .error "timestamp must include timezone"
  | some (naive, some off) => .ok (naive - off)

example : parse_utc_or_die "2020-01-01T00:00:00Z" = .ok 1577836800000000 := rfl

example : parse_utc_or_die "2020-01-01T01:00:00+01:00" = .ok 1577836800000000 := rfl

example : parse_utc_or_die "2021-06-30 23:59:59.25-04:30" = .ok 1625113799250000 := rfl

example : (parse_utc_or_die "not-a-date").isOk = false := rfl

example : parse_utc_or_die "2020-01-01" = .error "timestamp must include timezone" := rfl

example : (parse_utc_or_die "2020-02-30T00:00:00Z").isOk = false := rfl

example : sha256_hex (utf8Bytes "") =
    "e3b0c44298fc1c149afbf4c8996fb92427ae41e4649b934ca495991b7852b855" := by decide

example : sha256_hex (utf8Bytes "abc") =
    "ba7816bf8f01cfea414140de5dae2223b00361a396177a9cb410ff61f20015ad" := by decide

example : canonicalJson (.obj [("b", .num 1), ("a", .arr [.null, .bool true, .str "x"])]) =
    "\x7b\"a\":[null,true,\"x\"],\"b\":1\x7d" := by decide

/-! ### ChainVerifier: `verify_chain` (vp_verify.py lines 137-236) -/

def VERDICT_VERIFIED : String := "VERIFIED"

def VERDICT_UNDECLARED : String := "UNDECLARED"

def VERDICT_UNVERIFIABLE : String := "UNVERIFIABLE"

def VERDICT_INVALID_INPUT : String := "INVALID_INPUT"

def VERDICT_INVALID_CHAIN : String := "INVALID_CHAIN"

def VERDICT_POLICY_VIOLATION : String := "POLICY_VIOLATION"

/-- The `VerificationResult` dataclass (vp_verify.py lines 112-117). -/
structure VerificationResult where
  verdict : String
  errors : List String
  checked_events : Nat := 0
  active_event_id : Option String := none
  deriving DecidableEq, Repr

/-- The fields of a dict event (only applied to dicts). -/
def Json.fields : Json → List (String × Json)
  | .obj fs => fs
  | _ => []

/-- The key function `event_key` (vp_verify.py lines 148-149):
`(str(evt.get("recorded_at", "")), str(evt.get("event_id", "")))`. -/
def event_key (evt : Json) : String × String :=
  (pyStr (evt.getD "recorded_at" (.str "")), pyStr (evt.getD "event_id" (.str "")))

/-- Python tuple `<` on a pair of strings: lexicographic. -/
def pairLtB (a b : String × String) : Bool :=
  strLtB a.1.data b.1.data || (a.1 == b.1 && strLtB a.2.data b.2.data)

/-- The non-strict total preorder `a ≤ b ↔ ¬ b < a` induced by `event_key`;
a stable sort under it is exactly Python's `sorted(events, key=event_key)`. -/
def eventLE (a b : Json) : Bool := !pairLtB (event_key b) (event_key a)

/-- Model of `sorted(events, key=event_key)` (vp_verify.py line 151): Python's sort
is stable, and a stable sort by a total preorder is unique, so the
structural `insertionSort` (also stable for a non-strict preorder)
models it exactly. -/
def sortedEvents (events : List Json) : List Json :=
  events.insertionSort (fun a b => eventLE a b = true)

/-- Test that `prev_event_hash not in (None, "", "null")` is false, i.e. the value is
one of the null-ish sentinels (vp_verify.py line 171); `none` is an absent
key and `some .null` a stored JSON null — both are Python `None`. -/
def isNullishPrev : Option Json → Bool
  | none => true
  | some .null => true
  | some (.str s) => s == "" || s == "null"
  | _ => false

/-- Test `prev_event_hash == prev_hash` (vp_verify.py line 178); `prev_hash` is
a Python str for every non-genesis step. -/
def prevMatches (got : Option Json) (ph : Option String) : Bool :=
  match got, ph with
  | some (.str s), some p => s == p
  | none, none => true
  | some .null, none => true
  | _, _ => false

/-- The `d.get(k1)["k2"]`-style read used for `signature`/`timestamp`/
`transparency`: the sub-dict if the value is a dict, else `{}`, then
`.get(key)` on it (vp_verify.py lines 196-198). -/
def subDictGet (v : Option Json) (key : String) : Option Json :=
  match v with
  | some (.obj fs) => lookupField fs key
  | _ => none

/-- Membership of `str(evt.get("event_type", ""))` in `ATTESTATION_EVENTS`. -/
def isAttestationType (et : String) : Bool :=
  et == "ATTESTATION_ISSUED" || et == "ATTESTATION_SUPERSEDED"

/-- The local `event_id = str(evt.get("event_id", "")).strip()`
(vp_verify.py line 163). -/
def eventIdOf (evt : Json) : String := pyStrip (pyStr (evt.getD "event_id" (.str "")))

/-- The local `event_hash = str(evt.get("event_hash", "")).strip()`
(vp_verify.py line 164). -/
def eventHashOf (evt : Json) : String := pyStrip (pyStr (evt.getD "event_hash" (.str "")))

/-- The local `event_type = str(evt.get("event_type", ""))`
(vp_verify.py line 194). -/
def eventTypeOf (evt : Json) : String := pyStr (evt.getD "event_type" (.str ""))

/-- The full-payload test
`"issuer" in evt and "canonicalization" in evt and "artifact" in evt`
(vp_verify.py line 185). -/
def fullPayloadOf (evt : Json) : Bool :=
  evt.hasKey "issuer" && evt.hasKey "canonicalization" && evt.hasKey "artifact"

/-- The value `signature.get("value")` of vp_verify.py lines 196, 200. -/
def sigValOf (evt : Json) : Option Json := subDictGet (evt.get "signature") "value"

/-- The value `timestamp.get("value")` of vp_verify.py lines 197, 206. -/
def tsValOf (evt : Json) : Option Json := subDictGet (evt.get "timestamp") "value"

/-- The value `transparency.get("entry_id")` of vp_verify.py lines 198, 212. -/
def trValOf (evt : Json) : Option Json := subDictGet (evt.get "transparency") "entry_id"

/-- The event loop of `verify_chain` (vp_verify.py lines 160-236),
walking the canonically ordered events while tracking the enumeration
index, `prev_hash`, `active_event_id` and the non-fatal diagnostics; the
final `if errors / return` of lines 234-236 is the base case. -/
def chainWalk (sigReq tsReq trReq : Bool) (t : Int) :
    List Json → Nat → Option String → Option String → List String → VerificationResult
  | [], index, _, active, errors =>
    if errors.isEmpty then ⟨VERDICT_VERIFIED, [], index, active⟩
    else ⟨VERDICT_UNVERIFIABLE, errors, index, active⟩
  | evt :: rest, index, prevHash, active, errors =>
    if !evt.isObj then
      ⟨VERDICT_INVALID_CHAIN, ["event is not an object"], index, none⟩
    else if eventIdOf evt == "" || eventHashOf evt == "" then
      ⟨VERDICT_INVALID_CHAIN, ["event_id or event_hash missing"], index, none⟩
    else if index == 0 && !isNullishPrev (evt.get "prev_event_hash") then
      ⟨VERDICT_INVALID_CHAIN,
       ["genesis event " ++ eventIdOf evt ++ " has non-null prev_event_hash"], index + 1, none⟩
    else if index != 0 && !prevMatches (evt.get "prev_event_hash") prevHash then
      ⟨VERDICT_INVALID_CHAIN, ["prev_event_hash mismatch at " ++ eventIdOf evt], index + 1, none⟩
    else if fullPayloadOf evt && !(compute_event_hash evt.fields == eventHashOf evt) then
      ⟨VERDICT_INVALID_CHAIN, ["event_hash mismatch at " ++ eventIdOf evt], index + 1, none⟩
    else if fullPayloadOf evt && isAttestationType (eventTypeOf evt) && sigReq
        && !truthyOpt (sigValOf evt) then
      ⟨VERDICT_POLICY_VIOLATION,
       ["signature missing for required event " ++ eventIdOf evt], index + 1, none⟩
    else if fullPayloadOf evt && isAttestationType (eventTypeOf evt) && tsReq
        && !truthyOpt (tsValOf evt) then
      ⟨VERDICT_POLICY_VIOLATION,
       ["timestamp missing for required event " ++ eventIdOf evt], index + 1, none⟩
    else if fullPayloadOf evt && isAttestationType (eventTypeOf evt) && trReq
        && !truthyOpt (trValOf evt) then
      ⟨VERDICT_POLICY_VIOLATION,
       ["transparency proof missing for required event " ++ eventIdOf evt], index + 1, none⟩
    else
      let errors' :=
        if fullPayloadOf evt && isAttestationType (eventTypeOf evt) && sigReq
            && truthyOpt (sigValOf evt) then
          errors ++ ["cryptographic signature verification not implemented for " ++ eventIdOf evt]
        else errors
      if truthyOpt (evt.get "effective_at") && truthyOpt (evt.get "recorded_at") then
        match parse_utc_or_die (pyStr ((evt.get "effective_at").getD .null)) with
        | .error e => ⟨VERDICT_INVALID_INPUT, [e], index + 1, none⟩
        | .ok effT =>
          if decide (effT ≤ t) then
            match parse_utc_or_die (pyStr ((evt.get "recorded_at").getD .null)) with
            | .error e => ⟨VERDICT_INVALID_INPUT, [e], index + 1, none⟩
            | .ok recT =>
              chainWalk sigReq tsReq trReq t rest (index + 1) (some (eventHashOf evt))
                (if decide (recT ≤ t) then some (eventIdOf evt) else active) errors'
          else
            chainWalk sigReq tsReq trReq t rest (index + 1) (some (eventHashOf evt)) active errors'
      else
        chainWalk sigReq tsReq trReq t rest (index + 1) (some (eventHashOf evt)) active errors'

/-- The `policy` sub-dict read
`domain_doc.get("policy", {}) if isinstance(domain_doc.get("policy"), dict) else {}`
(vp_verify.py lines 155 and 286). -/
def policyOf (domain_doc : Json) : Json :=
  match domain_doc.get "policy" with
  | some (.obj fs) => Json.obj fs
  | _ => Json.obj []

/-- The function `verify_chain` (vp_verify.py lines 137-236).  `Except.error` models a
Python exception escaping the function: `chain_doc.get` on a non-dict, a
non-dict event reaching `event_key` inside `sorted` (the key function is
applied to every element before the loop's own `isinstance` check), or
`domain_doc.get` on a non-dict. -/
def verify_chain (domain_doc chain_doc : Json) (evaluated_at : Int) :
    Except String VerificationResult :=
  if !chain_doc.isObj then
    .error "AttributeError: chain_doc is not a dict"
  else
    match chain_doc.get "events" with
    | some (.arr events) =>
      if events.isEmpty then
        .ok ⟨VERDICT_INVALID_CHAIN, ["events array missing or empty"], 0, none⟩
      else if events.any (fun e => !e.isObj) then
        .error "AttributeError: event is not a dict"
      else if !domain_doc.isObj then
        .error "AttributeError: domain_doc is not a dict"
      else
        .ok (chainWalk (truthyOpt ((policyOf domain_doc).get "signature_required"))
          (truthyOpt ((policyOf domain_doc).get "timestamp_required"))
          (truthyOpt ((policyOf domain_doc).get "transparency_anchoring_required"))
          evaluated_at (sortedEvents events) 0 none none [])
    | _ => .ok ⟨VERDICT_INVALID_CHAIN, ["events array missing or empty"], 0, none⟩

example :
    verify_chain (.obj []) (.obj [("events",
      .arr [.obj [("event_id", .str "e1"), ("event_hash", .str "h1"),
                  ("recorded_at", .str "2020-01-01T00:00:00Z")],
            .obj [("event_id", .str "e2"), ("event_hash", .str "h2"),
                  ("prev_event_hash", .str "h1"),
                  ("recorded_at", .str "2020-01-02T00:00:00Z")]])]) 0 =
    .ok ⟨"VERIFIED", [], 2, none⟩ := rfl

example :
    verify_chain (.obj []) (.obj [("events", .arr [.str "x"])]) 0 =
    .error "AttributeError: event is not a dict" := rfl

example : verify_chain (.obj []) (.obj []) 0 =
    .ok ⟨"INVALID_CHAIN", ["events array missing or empty"], 0, none⟩ := rfl

/-! ### CanonicalCodec: URL canonicalization (vp_verify.py lines 44-83)
with a faithful model of the parts of `urllib.parse` it calls. -/

/-- ASCII uppercase letter to lowercase (Python `str.lower`; the inputs
this model lowercases — scheme and host — are treated ASCII-only). -/
def toAsciiLower (c : Char) : Char :=
  if 65 ≤ c.toNat && c.toNat ≤ 90 then Char.ofNat (c.toNat + 32) else c

/-- ASCII lowercase letter to uppercase. -/
def toAsciiUpper (c : Char) : Char :=
  if 97 ≤ c.toNat && c.toNat ≤ 122 then Char.ofNat (c.toNat - 32) else c

/-- ASCII letter test. -/
def isAsciiAlphaB (c : Char) : Bool :=
  (65 ≤ c.toNat && c.toNat ≤ 90) || (97 ≤ c.toNat && c.toNat ≤ 122)

/-- Hex digit test (`[0-9a-fA-F]`). -/
def isHexDigitB (c : Char) : Bool :=
  isDigitB c || (65 ≤ c.toNat && c.toNat ≤ 70) || (97 ≤ c.toNat && c.toNat ≤ 102)

/-- The characters allowed in a URL scheme (`urllib.parse.scheme_chars`). -/
def isSchemeChar (c : Char) : Bool :=
  isAsciiAlphaB c || isDigitB c || c = '+' || c = '-' || c = '.'

/-- Split at the first occurrence of `c`: `some (before, after)`, both
without the separator, or `none` when absent (Python `partition`). -/
def breakOnChar (c : Char) : List Char → Option (List Char × List Char)
  | [] => none
  | d :: rest =>
    if d = c then some ([], rest)
    else (breakOnChar c rest).map (fun p => (d :: p.1, p.2))

/-- Split at the last occurrence of `c` (Python `rpartition`). -/
def rbreakOnChar (c : Char) (l : List Char) : Option (List Char × List Char) :=
  (breakOnChar c l.reverse).map (fun p => (p.2.reverse, p.1.reverse))

/-- Python `str.split(sep)` for a single-character separator. -/
def splitOnChar (c : Char) : List Char → List (List Char)
  | [] => [[]]
  | d :: rest =>
    if d = c then [] :: splitOnChar c rest
    else
      match splitOnChar c rest with
      | h :: t => (d :: h) :: t
      | [] => [[d]]

/-- Digits possibly separated by single underscores (Python `int`
literal syntax), most significant first. -/
def digitsUnderscore : List Char → Nat → Option Nat
  | [], acc => some acc
  | '_' :: c :: rest, acc =>
    if isDigitB c then digitsUnderscore rest (acc * 10 + (c.toNat - 48)) else none
  | ['_'], _ => none
  | c :: rest, acc =>
    if isDigitB c then digitsUnderscore rest (acc * 10 + (c.toNat - 48)) else none

/-- Python `int(s, 10)`: surrounding whitespace, an optional sign, then
digits with optional single underscore separators. -/
def pyIntParse (s : String) : Option Int :=
  let l := ((s.data.dropWhile isPySpace).reverse.dropWhile isPySpace).reverse
  let digits : List Char → Option Nat := fun d =>
    match d with
    | c :: _ => if isDigitB c then digitsUnderscore d 0 else none
    | [] => none
  match l with
  | '+' :: rest => (digits rest).map (fun n => (n : Int))
  | '-' :: rest => (digits rest).map (fun n => -(n : Int))
  | rest => (digits rest).map (fun n => (n : Int))

/-- The result of `urllib.parse.urlsplit`. -/
structure SplitResult where
  scheme : String
  netloc : String
  path : String
  query : String
  fragment : String
  deriving DecidableEq, Repr

/-- Model of `urllib.parse.urlsplit` (CPython): strip `\t`/`\r`/`\n`, take a valid
scheme prefix before the first `:` (first character an ASCII letter, all
in `scheme_chars`) and lowercase it, take the netloc after `//` up to the
next `/`, `?` or `#` (raising `Invalid IPv6 URL` for an unpaired
bracket), then split off the fragment at the first `#` and the query at
the first `?`.  The NFKC confusables check for non-ASCII netlocs is not
modelled. -/
def urlsplit (url : String) : Except String SplitResult :=
  let u := url.data.filter (fun c => !(c = '\t' || c = '\r' || c = '\n'))
  let schemeRest : List Char × List Char :=
    match breakOnChar ':' u with
    | some (before, after) =>
      match before with
      | c :: _ =>
        if isAsciiAlphaB c && before.all isSchemeChar then (before.map toAsciiLower, after)
        else ([], u)
      | [] => ([], u)
    | none => ([], u)
  let scheme := schemeRest.1
  let netlocRest : Except String (List Char × List Char) :=
    match schemeRest.2 with
    | '/' :: '/' :: rest2 =>
      let netloc := rest2.takeWhile (fun c => !(c = '/' || c = '?' || c = '#'))
      let rest3 := rest2.dropWhile (fun c => !(c = '/' || c = '?' || c = '#'))
      if (netloc.contains '[' && !netloc.contains ']')
          || (netloc.contains ']' && !netloc.contains '[') then
        .error "Invalid IPv6 URL"
      else .ok (netloc, rest3)
    | rest => .ok ([], rest)
  match netlocRest with
  | .error e => .error e
  | .ok (netloc, rest3) =>
    let fragSplit : List Char × List Char :=
      match breakOnChar '#' rest3 with
      | some (before, after) => (before, after)
      | none => (rest3, [])
    let querySplit : List Char × List Char :=
      match breakOnChar '?' fragSplit.1 with
      | some (before, after) => (before, after)
      | none => (fragSplit.1, [])
    .ok ⟨String.mk scheme, String.mk netloc, String.mk querySplit.1,
         String.mk querySplit.2, String.mk fragSplit.2⟩

/-- The `hostinfo` part of a netloc: everything after the last `@`. -/
def hostinfoOf (netloc : List Char) : List Char :=
  match rbreakOnChar '@' netloc with
  | some p => p.2
  | none => netloc

/-- The `userinfo` part of a netloc: before the last `@`, when present. -/
def userinfoOf (netloc : List Char) : Option (List Char) :=
  (rbreakOnChar '@' netloc).map (·.1)

/-- Model of `SplitResult._hostinfo`: raw host and optional port text; a bracketed
IPv6 host has its brackets stripped, otherwise the host is everything
before the first `:`.  An empty port text counts as no port. -/
def hostPortOf (netloc : List Char) : List Char × Option (List Char) :=
  let hostinfo := hostinfoOf netloc
  let raw : List Char × Option (List Char) :=
    if hostinfo.contains '[' then
      match breakOnChar '[' hostinfo with
      | some (_, afterBr) =>
        match breakOnChar ']' afterBr with
        | some (host, rest) =>
          match breakOnChar ':' rest with
          | some (_, p) => (host, some p)
          | none => (host, none)
        | none => (afterBr, none)
      | none => (hostinfo, none)
    else
      match breakOnChar ':' hostinfo with
      | some (h, p) => (h, some p)
      | none => (hostinfo, none)
  match raw.2 with
  | some [] => (raw.1, none)
  | p => (raw.1, p)

/-- Model of `SplitResult.hostname`: lowercased host, `None` when empty. -/
def hostnameOf (netloc : List Char) : Option String :=
  let h := (hostPortOf netloc).1
  if h.isEmpty then none else some (String.mk (h.map toAsciiLower))

/-- Model of `SplitResult.port`: parse the port text as a decimal integer in
`0..65535`, raising `ValueError` (modelled as `Except.error`) otherwise. -/
def portOf (netloc : List Char) : Except String (Option Nat) :=
  match (hostPortOf netloc).2 with
  | none => .ok none
  | some p =>
    match pyIntParse (String.mk p) with
    | none => .error "Port could not be cast to integer value"
    | some v =>
      if 0 ≤ v && v ≤ 65535 then .ok (some v.toNat)
      else .error "Port out of range 0-65535"

/-- Model of `SplitResult.username`: the userinfo before the first `:`, `None`
when the netloc has no `@`. -/
def usernameOf (netloc : List Char) : Option String :=
  (userinfoOf netloc).map (fun ui =>
    match breakOnChar ':' ui with
    | some p => String.mk p.1
    | none => String.mk ui)

/-- Model of `SplitResult.password`: the userinfo after the first `:`, when both
an `@` and a `:` are present. -/
def passwordOf (netloc : List Char) : Option String :=
  match userinfoOf netloc with
  | none => none
  | some ui => (breakOnChar ':' ui).map (fun p => String.mk p.2)

/-- Model of `posixpath.normpath`. -/
def normpath (path : String) : String :=
  if path = "" then "."
  else
    let initialSlashes : Nat :=
      match path.data with
      | '/' :: '/' :: '/' :: _ => 1
      | '/' :: '/' :: _ => 2
      | '/' :: _ => 1
      | _ => 0
    let comps := (splitOnChar '/' path.data).map String.mk
    let newComps := comps.foldl (fun acc comp =>
      if comp = "" || comp = "." then acc
      else if comp ≠ ".." || (initialSlashes = 0 && acc.isEmpty)
          || (acc.getLast? = some "..") then acc ++ [comp]
      else if !acc.isEmpty then acc.dropLast
      else acc) []
    let p := String.mk (List.replicate initialSlashes '/') ++ String.intercalate "/" newComps
    if p = "" then "." else p

/-- The scan of `normalize_percent_hex` (vp_verify.py lines 44-45): uppercase the hex
digits of every `%XX` escape, scanning left to right past each match. -/
def normPercentGo : List Char → List Char
  | '%' :: a :: b :: rest =>
    if isHexDigitB a && isHexDigitB b then
      '%' :: toAsciiUpper a :: toAsciiUpper b :: normPercentGo rest
    else '%' :: normPercentGo (a :: b :: rest)
  | c :: rest => c :: normPercentGo rest
  | [] => []

/-- The function `normalize_percent_hex` on strings. -/
def normalize_percent_hex (s : String) : String :=
  String.mk (normPercentGo s.data)

/-- Model of `urllib.parse.urlunsplit` (fragment always empty at our call site). -/
def urlunsplit (scheme netloc path query fragment : String) : String :=
  let u1 :=
    if netloc ≠ "" || (path ≠ "" && path.data.take 2 = ['/', '/']) then
      "//" ++ netloc ++
        (if path ≠ "" && path.data.head? ≠ some '/' then "/" ++ path else path)
    else path
  let u2 := if scheme ≠ "" then scheme ++ ":" ++ u1 else u1
  let u3 := if query ≠ "" then u2 ++ "?" ++ query else u2
  if fragment ≠ "" then u3 ++ "#" ++ fragment else u3

/-- The function `canonicalize_artifact_url` (vp_verify.py lines 48-83); `Except.error`
models the `ValueError`s this function raises or propagates (bad URL,
missing host, invalid IPv6 netloc, unparsable port). -/
def canonicalize_artifact_url (url : String) : Except String String :=
  match urlsplit url with
  | .error e => .error e
  | .ok parsed =>
    if parsed.scheme = "" || parsed.netloc = "" then
      .error "URL must include scheme and host"
    else
      let scheme := String.mk (parsed.scheme.data.map toAsciiLower)
      let nl := parsed.netloc.data
      let host :=
        match hostnameOf nl with
        | some h => String.mk (h.data.map toAsciiLower)
        | none => ""
      if host = "" then .error "URL host is missing"
      else
        let userinfo :=
          match usernameOf nl with
          | none => ""
          | some u =>
            u ++ (match passwordOf nl with | none => "" | some p => ":" ++ p) ++ "@"
        match portOf nl with
        | .error e => .error e
        | .ok port =>
          let includePort :=
            match port with
            | none => false
            | some p => !((scheme = "http" && p = 80) || (scheme = "https" && p = 443))
          let netloc := userinfo ++ host ++
            (match port with
             | some p => if includePort then ":" ++ toString p else ""
             | none => "")
          let originalPath := if parsed.path = "" then "/" else parsed.path
          let trailingSlash := originalPath.data.getLast? = some '/'
          let np := normpath originalPath
          let np1 := if np.data.head? = some '/' then np else "/" ++ np
          let np2 :=
            if trailingSlash && np1.data.getLast? ≠ some '/' then np1 ++ "/" else np1
          let path := normalize_percent_hex np2
          let query := normalize_percent_hex parsed.query
          .ok (urlunsplit scheme netloc path query "")

example : canonicalize_artifact_url "HTTP://Example.COM:80/a/../b/" =
    .ok "http://example.com/b/" := rfl

example : canonicalize_artifact_url "https://example.com/a" =
    .ok "https://example.com/a" := rfl

example : canonicalize_artifact_url "nohost" =
    .error "URL must include scheme and host" := rfl

example : canonicalize_artifact_url "http://[::1]/a" = .ok "http://::1/a" := rfl

example : canonicalize_artifact_url "http://::1/a" = .error "URL host is missing" := rfl

example : canonicalize_artifact_url "https://h.io/x%2f/?q=%3d#frag" =
    .ok "https://h.io/x%2F/?q=%3D" := rfl

/-! ### DiscoveryClient: `verify_remote_artifact` (vp_verify.py lines
239-296).  The network is an explicit oracle `fetch : url → timeout →
FetchResult`; `fetch_json`'s possible failures are an HTTP error with a
status code or any other exception (transport, JSON decode) with a
message. -/

/-- Uppercase hex digit. -/
def hexDigitUpper (n : Nat) : Char :=
  if n < 10 then Char.ofNat (48 + n) else Char.ofNat (55 + n)

/-- Model of `urllib.parse.quote(s, safe="")`: percent-encode every UTF-8 byte
outside `ALPHA / DIGIT / "_" / "." / "-" / "~"`, with uppercase hex. -/
def quoteByte (b : Nat) : String :=
  if (65 ≤ b && b ≤ 90) || (97 ≤ b && b ≤ 122) || (48 ≤ b && b ≤ 57)
      || b = 95 || b = 46 || b = 45 || b = 126 then
    String.singleton (Char.ofNat b)
  else "%" ++ String.mk [hexDigitUpper (b / 16), hexDigitUpper (b % 16)]

/-- Model of `urllib.parse.quote(s, safe="")` on a string. -/
def pyQuote (s : String) : String :=
  String.join ((utf8Bytes s).map quoteByte)

/-- Does `l` start with `pat`? -/
def listStartsWith : List Char → List Char → Bool
  | [], _ => true
  | _ :: _, [] => false
  | p :: ps, c :: cs => p = c && listStartsWith ps cs

/-- Python `pat in s` substring containment. -/
def containsSub (pat : List Char) : List Char → Bool
  | [] => pat.isEmpty
  | c :: rest => listStartsWith pat (c :: rest) || containsSub pat rest

/-- Python `s.startswith(pre)`. -/
def strStartsWith (s pre : String) : Bool :=
  listStartsWith pre.data s.data

/-- Python `s.replace(pat, repl)`: non-overlapping, left to right
(fuel-based for structural termination; the fuel is the input length,
which the scan never exceeds since `pat` is nonempty at our call site). -/
def replaceGo (pat repl : List Char) : Nat → List Char → List Char
  | 0, l => l
  | _ + 1, [] => []
  | fuel + 1, c :: rest =>
    if listStartsWith pat (c :: rest) then
      repl ++ replaceGo pat repl fuel ((c :: rest).drop pat.length)
    else c :: replaceGo pat repl fuel rest

/-- Python `s.replace(pat, repl)` on strings. -/
def strReplace (s pat repl : String) : String :=
  String.mk (replaceGo pat.data repl.data s.data.length s.data)

/-- Python `isinstance(v, dict)` on an optional value. -/
def isObjOpt : Option Json → Bool
  | some (.obj _) => true
  | _ => false

/-- Model of `re.fullmatch(r"[0-9a-f]\x7b64\x7d", s)` as a Boolean. -/
def isHex64 (s : String) : Bool :=
  s.data.length = 64 && s.data.all (fun c => isDigitB c || (97 ≤ c.toNat && c.toNat ≤ 102))

/-- Outcome of `fetch_json`: an `urllib.error.HTTPError` with a status
code, any other exception with a message, or a decoded JSON body. -/
inductive FetchResult where
  | httpError : Nat → FetchResult
  | failure : String → FetchResult
  | ok : Json → FetchResult

/-- Display text of a failed fetch, used inside diagnostics. -/
def fetchErrText : FetchResult → String
  | .httpError code => "HTTP Error " ++ toString code
  | .failure msg => msg
  | .ok _ => ""

/-- The legacy discovery suffix (vp_verify.py lines 269-272):
`artifact_discovery.suffix` when it is a string, else `.provenance.json`. -/
def suffixOf (domain_doc : Json) : String :=
  match domain_doc.get "artifact_discovery" with
  | some (.obj ad) =>
    match lookupField ad "suffix" with
    | some (.str s) => s
    | _ => ".provenance.json"
  | _ => ".provenance.json"

/-- The function `verify_remote_artifact` (vp_verify.py lines 239-296).  `Except.error`
models an exception escaping the function: the two `canonicalize_artifact_url`
calls (lines 240 and 279) are outside any `try`, as are the dict accesses
on a non-dict policy document (line 253), manifest (line 279), and the
`verify_chain` call (line 266). -/
def verify_remote_artifact (fetch : String → Nat → FetchResult) (url : String)
    (timeout : Nat) (evaluated_at : Int) : Except String VerificationResult :=
  match canonicalize_artifact_url url with
  | .error e => .error e
  | .ok canonical_url =>
    match urlsplit canonical_url with
    | .error e => .error e
    | .ok sp =>
      let well_known_url := "https://" ++ sp.netloc ++ "/.well-known/provenance"
      match fetch well_known_url timeout with
      | .httpError code =>
        if code = 404 then
          .ok ⟨VERDICT_UNDECLARED, ["missing " ++ well_known_url], 0, none⟩
        else
          .ok ⟨VERDICT_UNVERIFIABLE,
               ["domain policy fetch failed: HTTP " ++ toString code], 0, none⟩
      | .failure msg =>
        .ok ⟨VERDICT_UNVERIFIABLE, ["domain policy fetch failed: " ++ msg], 0, none⟩
      | .ok domain_doc =>
        if !domain_doc.isObj then .error "AttributeError: domain_doc is not a dict"
        else
          let spec_version := pyStr (domain_doc.getD "spec_version" (.str "1.0"))
          if strStartsWith spec_version "1.1" && isObjOpt (domain_doc.get "evidence_api") then
            match subDictGet (domain_doc.get "evidence_api") "events_by_artifact" with
            | some (.str tstr) =>
              if !containsSub "\x7bartifact_url\x7d".data tstr.data then
                .ok ⟨VERDICT_UNVERIFIABLE, ["events_by_artifact URL template missing"], 0, none⟩
              else
                let events_url := strReplace tstr "\x7bartifact_url\x7d" (pyQuote canonical_url)
                match fetch events_url timeout with
                | .ok chain_doc =>
                  let chain_doc' :=
                    match chain_doc with
                    | .arr xs => Json.obj [("events", .arr xs)]
                    | other => other
                  verify_chain domain_doc chain_doc' evaluated_at
                | bad =>
                  .ok ⟨VERDICT_UNVERIFIABLE,
                       ["events fetch failed: " ++ fetchErrText bad], 0, none⟩
            | _ =>
              .ok ⟨VERDICT_UNVERIFIABLE, ["events_by_artifact URL template missing"], 0, none⟩
          else
            match fetch (canonical_url ++ suffixOf domain_doc) timeout with
            | .ok manifest =>
              if !manifest.isObj then .error "AttributeError: manifest is not a dict"
              else
                match canonicalize_artifact_url (pyStr (manifest.getD "artifact_url" (.str ""))) with
                | .error e => .error e
                | .ok mcanon =>
                  if mcanon ≠ canonical_url then
                    .ok ⟨VERDICT_INVALID_INPUT, ["manifest artifact_url mismatch"], 0, none⟩
                  else
                    let content_hash := pyStrip (pyStr (manifest.getD "content_sha256" (.str "")))
                    if !isHex64 content_hash then
                      .ok ⟨VERDICT_INVALID_INPUT,
                           ["manifest content_sha256 is not valid hex sha256"], 0, none⟩
                    else
                      let signature_required := truthyOpt ((policyOf domain_doc).get "signature_required")
                      let sigVal := subDictGet (manifest.get "signature") "value"
                      if signature_required && !truthyOpt sigVal then
                        .ok ⟨VERDICT_POLICY_VIOLATION, ["signature required but missing"], 0, none⟩
                      else if signature_required then
                        .ok ⟨VERDICT_UNVERIFIABLE,
                             ["cryptographic signature verification is not implemented for v1.0 projection manifests"],
                             0, none⟩
                      else .ok ⟨VERDICT_VERIFIED, [], 0, none⟩
            | bad =>
              .ok ⟨VERDICT_UNVERIFIABLE, ["manifest fetch failed: " ++ fetchErrText bad], 0, none⟩

example :
    verify_remote_artifact (fun _ _ => .httpError 404) "https://example.com/a" 10 0 =
    .ok ⟨"UNDECLARED", ["missing https://example.com/.well-known/provenance"], 0, none⟩ := rfl

example :
    verify_remote_artifact (fun _ _ => .httpError 404) "nohost" 10 0 =
    .error "URL must include scheme and host" := rfl

example :
    verify_remote_artifact
      (fun u _ =>
        if u = "https://example.com/.well-known/provenance" then
          .ok (.obj [("policy", .obj [("signature_required", .bool true)])])
        else if u = "https://example.com/a.provenance.json" then
          .ok (.obj [("artifact_url", .str "https://example.com/a"),
                     ("content_sha256", .str "aaaaaaaaaaaaaaaaaaaaaaaaaaaaaaaaaaaaaaaaaaaaaaaaaaaaaaaaaaaaaaaa"),
                     ("signature", .obj [("value", .str "")])])
        else .httpError 404)
      "https://example.com/a" 10 0 =
    .ok ⟨"POLICY_VIOLATION", ["signature required but missing"], 0, none⟩ := rfl

/-! ### Order-theoretic facts about the embedded comparisons -/

theorem char_eq_of_toNat_eq {a b : Char} (h : a.toNat = b.toNat) : a = b :=
  Char.eq_of_val_eq (UInt32.eq_of_toBitVec_eq (BitVec.eq_of_toNat_eq h))

theorem strLtB_irrefl : ∀ l : List Char, strLtB l l = false
  | [] => rfl
  | a :: as => by simp [strLtB, strLtB_irrefl as]

theorem strLtB_trans :
    ∀ l₁ l₂ l₃ : List Char, strLtB l₁ l₂ = true → strLtB l₂ l₃ = true →
      strLtB l₁ l₃ = true := by
  intro l₁
  induction l₁ with
  | nil =>
    intro l₂ l₃ h₁ h₂
    cases l₂ with
    | nil => simp [strLtB] at h₁
    | cons b bs =>
      cases l₃ with
      | nil => simp [strLtB] at h₂
      | cons c cs => simp [strLtB]
  | cons a as ih =>
    intro l₂ l₃ h₁ h₂
    cases l₂ with
    | nil => simp [strLtB] at h₁
    | cons b bs =>
      cases l₃ with
      | nil => simp [strLtB] at h₂
      | cons c cs =>
        simp only [strLtB] at h₁ h₂ ⊢
        by_cases hab : a.toNat < b.toNat
        · by_cases hbc : b.toNat < c.toNat
          · simp [show a.toNat < c.toNat by omega]
          · by_cases hcb : c.toNat < b.toNat
            · simp [hbc, hcb] at h₂
            · simp [show a.toNat < c.toNat by omega]
        · by_cases hba : b.toNat < a.toNat
          · simp [hab, hba] at h₁
          · simp [hab, hba] at h₁
            by_cases hbc : b.toNat < c.toNat
            · simp [show a.toNat < c.toNat by omega]
            · by_cases hcb : c.toNat < b.toNat
              · simp [hbc, hcb] at h₂
              · simp [hbc, hcb] at h₂
                simp [show ¬a.toNat < c.toNat by omega,
                      show ¬c.toNat < a.toNat by omega, ih bs cs h₁ h₂]

theorem strLtB_conn :
    ∀ l₁ l₂ : List Char, strLtB l₁ l₂ = false → strLtB l₂ l₁ = false → l₁ = l₂ := by
  intro l₁
  induction l₁ with
  | nil =>
    intro l₂ h₁ _
    cases l₂ with
    | nil => rfl
    | cons b bs => simp [strLtB] at h₁
  | cons a as ih =>
    intro l₂ h₁ h₂
    cases l₂ with
    | nil => simp [strLtB] at h₂
    | cons b bs =>
      simp only [strLtB] at h₁ h₂
      by_cases hab : a.toNat < b.toNat
      · simp [hab] at h₁
      · by_cases hba : b.toNat < a.toNat
        · simp [hab, hba] at h₂
        · simp [hab, hba] at h₁ h₂
          have hc : a = b := char_eq_of_toNat_eq (by omega)
          rw [hc, ih bs h₁ h₂]

theorem strLtB_asymm {l₁ l₂ : List Char} (h : strLtB l₁ l₂ = true) : strLtB l₂ l₁ = false := by
  by_contra hc
  have h₂ : strLtB l₂ l₁ = true := by
    cases hx : strLtB l₂ l₁ with
    | true => rfl
    | false => exact absurd hx hc
  have := strLtB_trans _ _ _ h h₂
  rw [strLtB_irrefl] at this
  exact Bool.noConfusion this

theorem pairLtB_irrefl (a : String × String) : pairLtB a a = false := by
  simp [pairLtB, strLtB_irrefl]

theorem pairLtB_conn {a b : String × String} (h₁ : pairLtB a b = false)
    (h₂ : pairLtB b a = false) : a = b := by
  simp only [pairLtB, Bool.or_eq_false_iff, Bool.and_eq_false_iff] at h₁ h₂
  have h1 : a.1 = b.1 := String.ext (strLtB_conn _ _ h₁.1 h₂.1)
  have h2 : a.2 = b.2 := by
    rcases h₁.2 with hbeq | hlt
    · rw [beq_eq_false_iff_ne] at hbeq; exact absurd h1 hbeq
    · rcases h₂.2 with hbeq | hlt'
      · rw [beq_eq_false_iff_ne] at hbeq; exact absurd h1.symm hbeq
      · exact String.ext (strLtB_conn _ _ hlt hlt')
  exact Prod.ext h1 h2

theorem pairLtB_trans {a b c : String × String} (h₁ : pairLtB a b = true)
    (h₂ : pairLtB b c = true) : pairLtB a c = true := by
  simp only [pairLtB, Bool.or_eq_true, Bool.and_eq_true, beq_iff_eq] at h₁ h₂ ⊢
  rcases h₁ with h₁ | ⟨h₁e, h₁l⟩
  · rcases h₂ with h₂ | ⟨h₂e, h₂l⟩
    · exact Or.inl (strLtB_trans _ _ _ h₁ h₂)
    · exact Or.inl (h₂e ▸ h₁)
  · rcases h₂ with h₂ | ⟨h₂e, h₂l⟩
    · exact Or.inl (h₁e ▸ h₂)
    · exact Or.inr ⟨h₁e.trans h₂e, strLtB_trans _ _ _ h₁l h₂l⟩

theorem pairLtB_asymm {a b : String × String} (h : pairLtB a b = true) :
    pairLtB b a = false := by
  by_contra hc
  have h₂ : pairLtB b a = true := by
    cases hx : pairLtB b a with
    | true => rfl
    | false => exact absurd hx hc
  have := pairLtB_trans h h₂
  rw [pairLtB_irrefl] at this
  exact Bool.noConfusion this

theorem eventLE_total (a b : Json) : eventLE a b = true ∨ eventLE b a = true := by
  simp only [eventLE, Bool.not_eq_true']
  by_cases h : pairLtB (event_key b) (event_key a) = true
  · exact Or.inr (pairLtB_asymm h)
  · exact Or.inl (Bool.not_eq_true _ ▸ Bool.of_not_eq_true h)

theorem eventLE_trans {a b c : Json} (h₁ : eventLE a b = true) (h₂ : eventLE b c = true) :
    eventLE a c = true := by
  simp only [eventLE, Bool.not_eq_true'] at h₁ h₂ ⊢
  by_contra hc
  have hca : pairLtB (event_key c) (event_key a) = true := by
    cases hx : pairLtB (event_key c) (event_key a) with
    | true => rfl
    | false => exact absurd hx hc
  by_cases hakb : pairLtB (event_key a) (event_key b) = true
  · have := pairLtB_trans hca hakb
    rw [h₂] at this
    exact Bool.noConfusion this
  · have hakb' : pairLtB (event_key a) (event_key b) = false := by
      cases hx : pairLtB (event_key a) (event_key b) with
      | true => exact absurd hx hakb
      | false => rfl
    have heq : event_key a = event_key b := pairLtB_conn hakb' h₁
    rw [heq] at hca
    rw [h₂] at hca
    exact Bool.noConfusion hca

/-- Two sorted lists that are permutations of one another are equal,
given antisymmetry of the ordering on the elements involved. -/
theorem sorted_perm_unique {α : Type} {r : α → α → Prop} :
    ∀ {l₁ l₂ : List α}, l₁.Perm l₂ → l₁.Pairwise r → l₂.Pairwise r →
      (∀ a b, a ∈ l₁ → b ∈ l₁ → r a b → r b a → a = b) → l₁ = l₂ := by
  intro l₁
  induction l₁ with
  | nil => intro l₂ hp _ _ _; exact hp.nil_eq
  | cons a t₁ ih =>
    intro l₂ hp hs₁ hs₂ hanti
    cases l₂ with
    | nil => exact absurd hp.symm.nil_eq (by simp)
    | cons b t₂ =>
      have hab : a = b := by
        have ha₂ : a ∈ b :: t₂ := hp.subset (List.mem_cons_self a t₁)
        have hb₁ : b ∈ a :: t₁ := hp.symm.subset (List.mem_cons_self b t₂)
        rcases List.mem_cons.mp ha₂ with h | ha₂'
        · exact h
        rcases List.mem_cons.mp hb₁ with h | hb₁'
        · exact h.symm
        have hr₁ : r a b := (List.pairwise_cons.mp hs₁).1 b hb₁'
        have hr₂ : r b a := (List.pairwise_cons.mp hs₂).1 a ha₂'
        exact hanti a b (List.mem_cons_self a t₁) (List.mem_cons_of_mem _ hb₁') hr₁ hr₂
      subst hab
      have ht : t₁.Perm t₂ := hp.cons_inv
      have htail := ih ht (List.pairwise_cons.mp hs₁).2 (List.pairwise_cons.mp hs₂).2
        (fun x y hx hy => hanti x y (List.mem_cons_of_mem _ hx) (List.mem_cons_of_mem _ hy))
      rw [htail]

theorem sortedEvents_perm (l : List Json) : (sortedEvents l).Perm l :=
  List.perm_insertionSort _ l

theorem sortedEvents_sorted (l : List Json) :
    (sortedEvents l).Pairwise (fun a b => eventLE a b = true) := by
  have := @List.sorted_insertionSort Json (fun a b => eventLE a b = true)
    (fun a b => instDecidableEqBool (eventLE a b) true)
    ⟨fun a b => eventLE_total a b⟩ ⟨fun _ _ _ => eventLE_trans⟩ l
  exact this

/-- Canonical order depends only on the multiset of events whenever the
sort keys are pairwise distinct. -/
theorem sortedEvents_eq_of_perm {l₁ l₂ : List Json} (hp : l₁.Perm l₂)
    (hnd : (l₁.map event_key).Nodup) : sortedEvents l₁ = sortedEvents l₂ := by
  apply sorted_perm_unique (r := fun a b => eventLE a b = true)
  · exact (sortedEvents_perm l₁).trans (hp.trans (sortedEvents_perm l₂).symm)
  · exact sortedEvents_sorted l₁
  · exact sortedEvents_sorted l₂
  · intro a b ha hb hab hba
    have ha' : a ∈ l₁ := (sortedEvents_perm l₁).subset ha
    have hb' : b ∈ l₁ := (sortedEvents_perm l₁).subset hb
    have hk : event_key a = event_key b := by
      simp only [eventLE, Bool.not_eq_true'] at hab hba
      exact pairLtB_conn hba hab
    exact List.inj_on_of_nodup_map hnd ha' hb' hk

theorem get_some_isObj {j : Json} {k : String} {v : Json} (h : j.get k = some v) :
    j.isObj = true := by
  cases j <;> first | rfl | simp [Json.get] at h

theorem perm_any_eq {l₁ l₂ : List Json} (hp : l₁.Perm l₂) (p : Json → Bool) :
    l₁.any p = l₂.any p := by
  cases hx : l₂.any p with
  | true =>
    rw [List.any_eq_true] at hx ⊢
    obtain ⟨x, hx₂, hpx⟩ := hx
    exact ⟨x, hp.symm.subset hx₂, hpx⟩
  | false =>
    rw [List.any_eq_false] at hx ⊢
    intro x hx₁
    exact hx x (hp.subset hx₁)

/-- One event "qualifies" at evaluation time `t`: both timestamp fields
are Python-truthy, and both parse and are at most `t` — parsed in the
short-circuit order of vp_verify.py lines 223-228. -/
def qualifiesAt (t : Int) (evt : Json) : Bool :=
  (truthyOpt (evt.get "effective_at") && truthyOpt (evt.get "recorded_at")) &&
  (match parse_utc_or_die (pyStr ((evt.get "effective_at").getD .null)) with
   | .ok effT =>
     decide (effT ≤ t) &&
       (match parse_utc_or_die (pyStr ((evt.get "recorded_at").getD .null)) with
        | .ok recT => decide (recT ≤ t)
        | .error _ => false)
   | .error _ => false)

/-- The last-writer-wins recurrence for the active-event pointer
(vp_verify.py line 228). -/
def activeFold (t : Int) : Option String → List Json → Option String
  | act, [] => act
  | act, evt :: rest =>
    activeFold t (if qualifiesAt t evt then some (eventIdOf evt) else act) rest

/-- Stated from the claim: the active event is the last event in canonical
order whose `effective_at` and `recorded_at` both exist and are both at
most the evaluation time, `none` when no event qualifies. -/
def activeEventSpec (ordered : List Json) (t : Int) : Option String :=
  ((ordered.filter (fun e => qualifiesAt t e)).getLast?).map eventIdOf

theorem getLast?_cons_eq {α : Type} (a : α) (l : List α) :
    (a :: l).getLast? = some ((l.getLast?).getD a) := by
  induction l generalizing a with
  | nil => rfl
  | cons b l ih =>
    rw [List.getLast?_cons_cons, ih b]
    cases hx : l.getLast? with
    | none => simp [ih b, hx]
    | some c => simp [ih b, hx]

theorem activeFold_eq_spec (t : Int) :
    ∀ (l : List Json) (act : Option String),
      activeFold t act l =
        match (l.filter (fun e => qualifiesAt t e)).getLast? with
        | some e => some (eventIdOf e)
        | none => act := by
  intro l
  induction l with
  | nil => intro act; rfl
  | cons evt rest ih =>
    intro act
    by_cases hq : qualifiesAt t evt = true
    · simp only [activeFold, hq, if_true, List.filter_cons_of_pos hq, ih]
      rw [getLast?_cons_eq]
      cases hx : (rest.filter (fun e => qualifiesAt t e)).getLast? with
      | none => simp [hx]
      | some c => simp [hx]
    · have hq' : qualifiesAt t evt = false := by
        cases hx : qualifiesAt t evt with
        | true => exact absurd hx hq
        | false => rfl
      simp only [activeFold, hq', List.filter_cons_of_neg hq, ih]
      cases hx : (rest.filter (fun e => qualifiesAt t e)).getLast? with
      | none => simp [hx]
      | some c => simp [hx]

theorem chainWalk_active (sq tq trq : Bool) (t : Int) :
    ∀ (l : List Json) (index : Nat) (ph act : Option String) (errs : List String),
      ((chainWalk sq tq trq t l index ph act errs).verdict = VERDICT_VERIFIED ∨
       (chainWalk sq tq trq t l index ph act errs).verdict = VERDICT_UNVERIFIABLE) →
      (chainWalk sq tq trq t l index ph act errs).active_event_id = activeFold t act l := by
  intro l
  induction l with
  | nil =>
    intro index ph act errs _
    simp only [chainWalk, activeFold]
    split <;> rfl
  | cons evt rest ih =>
    intro index ph act errs hv
    simp only [chainWalk] at hv ⊢
    by_cases h1 : (!evt.isObj) = true
    · simp [h1, VERDICT_INVALID_CHAIN, VERDICT_VERIFIED, VERDICT_UNVERIFIABLE] at hv
    by_cases h2 : (eventIdOf evt == "" || eventHashOf evt == "") = true
    · simp [h1, h2, VERDICT_INVALID_CHAIN, VERDICT_VERIFIED, VERDICT_UNVERIFIABLE] at hv
    by_cases h3 : (index == 0 && !isNullishPrev (evt.get "prev_event_hash")) = true
    · simp [h1, h2, h3, VERDICT_INVALID_CHAIN, VERDICT_VERIFIED, VERDICT_UNVERIFIABLE] at hv
    by_cases h4 : (index != 0 && !prevMatches (evt.get "prev_event_hash") ph) = true
    · simp [h1, h2, h3, h4, VERDICT_INVALID_CHAIN, VERDICT_VERIFIED, VERDICT_UNVERIFIABLE] at hv
    by_cases h5 : (fullPayloadOf evt && !(compute_event_hash evt.fields == eventHashOf evt)) = true
    · simp [h1, h2, h3, h4, h5, VERDICT_INVALID_CHAIN, VERDICT_VERIFIED, VERDICT_UNVERIFIABLE] at hv
    by_cases h6 : (fullPayloadOf evt && isAttestationType (eventTypeOf evt) && sq
        && !truthyOpt (sigValOf evt)) = true
    · simp [h1, h2, h3, h4, h5, h6, VERDICT_POLICY_VIOLATION, VERDICT_VERIFIED,
        VERDICT_UNVERIFIABLE] at hv
    by_cases h7 : (fullPayloadOf evt && isAttestationType (eventTypeOf evt) && tq
        && !truthyOpt (tsValOf evt)) = true
    · simp [h1, h2, h3, h4, h5, h6, h7, VERDICT_POLICY_VIOLATION, VERDICT_VERIFIED,
        VERDICT_UNVERIFIABLE] at hv
    by_cases h8 : (fullPayloadOf evt && isAttestationType (eventTypeOf evt) && trq
        && !truthyOpt (trValOf evt)) = true
    · simp [h1, h2, h3, h4, h5, h6, h7, h8, VERDICT_POLICY_VIOLATION, VERDICT_VERIFIED,
        VERDICT_UNVERIFIABLE] at hv
    by_cases h9 : (truthyOpt (evt.get "effective_at") && truthyOpt (evt.get "recorded_at")) = true
    · cases hpe : parse_utc_or_die (pyStr ((evt.get "effective_at").getD .null)) with
      | error e =>
        simp [h1, h2, h3, h4, h5, h6, h7, h8, h9, hpe, VERDICT_INVALID_INPUT, VERDICT_VERIFIED,
          VERDICT_UNVERIFIABLE] at hv
      | ok effT =>
        by_cases h10 : effT ≤ t
        · cases hpr : parse_utc_or_die (pyStr ((evt.get "recorded_at").getD .null)) with
          | error e =>
            simp [h1, h2, h3, h4, h5, h6, h7, h8, h9, hpe, h10, hpr, VERDICT_INVALID_INPUT,
              VERDICT_VERIFIED, VERDICT_UNVERIFIABLE] at hv
          | ok recT =>
            simp only [h1, h2, h3, h4, h5, h6, h7, h8, h9, hpe, h10, hpr, if_true, if_false,
              decide_eq_true_eq, Bool.not_eq_true, if_neg, if_pos] at hv ⊢
            refine (ih _ _ _ _ hv).trans ?_
            have hq : qualifiesAt t evt = decide (recT ≤ t) := by
              simp [qualifiesAt, h9, hpe, hpr, h10]
            simp only [activeFold, hq]
            by_cases hrt : recT ≤ t
            · simp [hrt]
            · simp [hrt]
        · simp [h1, h2, h3, h4, h5, h6, h7, h8, h9, hpe, h10] at hv ⊢
          refine (ih _ _ _ _ hv).trans ?_
          have hq : qualifiesAt t evt = false := by simp [qualifiesAt, hpe, h10]
          simp [activeFold, hq]
    · have h9' : (truthyOpt (evt.get "effective_at") && truthyOpt (evt.get "recorded_at")) = false := by
        cases hx : (truthyOpt (evt.get "effective_at") && truthyOpt (evt.get "recorded_at")) with
        | true => exact absurd hx h9
        | false => rfl
      simp only [h1, h2, h3, h4, h5, h6, h7, h8, h9'] at hv ⊢
      refine (ih _ _ _ _ hv).trans ?_
      have hq : qualifiesAt t evt = false := by simp [qualifiesAt, h9']
      simp [activeFold, hq]

/-- C4: for every chain that passes the structural and policy checks (the
walk completes, i.e. the verdict is VERIFIED or UNVERIFIABLE), the
`active_event_id` of the result is the id of the last event in canonical
order whose `effective_at` and `recorded_at` are both present (truthy) and
both at most the evaluation time, and `none` when no event qualifies. -/
theorem c4_active_event (domain_doc chain_doc : Json) (t : Int) (l : List Json)
    (r : VerificationResult)
    (hev : chain_doc.get "events" = some (.arr l))
    (hr : verify_chain domain_doc chain_doc t = .ok r)
    (hv : r.verdict = VERDICT_VERIFIED ∨ r.verdict = VERDICT_UNVERIFIABLE) :
    r.active_event_id = activeEventSpec (sortedEvents l) t := by
  have hobj := get_some_isObj hev
  simp only [verify_chain, hobj, hev, Bool.not_true] at hr
  by_cases he : l.isEmpty
  · simp [he] at hr
    rw [← hr] at hv
    simp [VERDICT_INVALID_CHAIN, VERDICT_VERIFIED, VERDICT_UNVERIFIABLE] at hv
  by_cases ha : (l.any fun e => !e.isObj) = true
  · simp [he, ha] at hr
  by_cases hd : domain_doc.isObj = true
  · simp only [he, ha, hd, if_true, if_false, Bool.not_true, Bool.false_eq_true,
      Bool.not_false, if_neg, Except.ok.injEq] at hr
    rw [← hr] at hv ⊢
    rw [chainWalk_active _ _ _ _ _ _ _ _ _ hv]
    rw [activeFold_eq_spec]
    simp only [activeEventSpec]
    cases hx : ((sortedEvents l).filter fun e => qualifiesAt t e).getLast? with
    | none => simp [hx]
    | some c => simp [hx]
  · simp [he, ha, hd] at hr

/-- Witness for C4 at a concrete verified chain: one qualifying event,
whose id the result reports as active. -/
theorem c4_active_event_witness :
    verify_chain (.obj [])
        (.obj [("events", .arr [.obj [("event_id", .str "e1"), ("event_hash", .str "h1"),
          ("recorded_at", .str "2020-01-01T00:00:00Z"),
          ("effective_at", .str "2020-01-01T00:00:00Z")]])]) 1577836800000000 =
      .ok ⟨"VERIFIED", [], 1, some "e1"⟩ ∧
    (⟨"VERIFIED", [], 1, some "e1"⟩ : VerificationResult).active_event_id =
      activeEventSpec (sortedEvents [.obj [("event_id", .str "e1"), ("event_hash", .str "h1"),
        ("recorded_at", .str "2020-01-01T00:00:00Z"),
        ("effective_at", .str "2020-01-01T00:00:00Z")]]) 1577836800000000 :=
  ⟨rfl,
   c4_active_event (Json.obj [])
     (.obj [("events", .arr [.obj [("event_id", .str "e1"), ("event_hash", .str "h1"),
       ("recorded_at", .str "2020-01-01T00:00:00Z"),
       ("effective_at", .str "2020-01-01T00:00:00Z")]])]) 1577836800000000
     [.obj [("event_id", .str "e1"), ("event_hash", .str "h1"),
       ("recorded_at", .str "2020-01-01T00:00:00Z"),
       ("effective_at", .str "2020-01-01T00:00:00Z")]]
     ⟨"VERIFIED", [], 1, some "e1"⟩ rfl rfl (Or.inl rfl)⟩

/-- C3 (amended): when the walk of `verify_chain` reaches an event (any
state of index, previous hash, active pointer and accumulated
diagnostics) that passes its structural checks, carries the full payload
(`issuer`, `canonicalization`, `artifact` — without which the policy
check is skipped), recomputes to its declared hash, is of attestation
type, and has no truthy `signature.value` while `signature_required` is
true, the walk stops with verdict POLICY_VIOLATION. -/
theorem c3_policy_violation (tq trq : Bool) (t : Int) (evt : Json) (rest : List Json)
    (index : Nat) (ph act : Option String) (errs : List String)
    (hobj : evt.isObj = true)
    (hids : (eventIdOf evt == "" || eventHashOf evt == "") = false)
    (hgen : (index == 0 && !isNullishPrev (evt.get "prev_event_hash")) = false)
    (hprev : (index != 0 && !prevMatches (evt.get "prev_event_hash") ph) = false)
    (hfull : fullPayloadOf evt = true)
    (hhash : compute_event_hash evt.fields = eventHashOf evt)
    (hattn : isAttestationType (eventTypeOf evt) = true)
    (hsig : truthyOpt (sigValOf evt) = false) :
    chainWalk true tq trq t (evt :: rest) index ph act errs =
      ⟨VERDICT_POLICY_VIOLATION,
       ["signature missing for required event " ++ eventIdOf evt], index + 1, none⟩ := by
  simp [chainWalk, hobj, hids, hgen, hprev, hfull, hhash, hattn, hsig]

/-- Counterexample to C3 as stated: an attestation-type event without the
full payload skips the policy check entirely — with `signature_required`
true and no signature, `verify_chain` still returns VERIFIED, not
POLICY_VIOLATION. -/
theorem c3_counterexample :
    (isAttestationType (eventTypeOf (.obj [("event_id", .str "e1"), ("event_hash", .str "h1"),
        ("event_type", .str "ATTESTATION_ISSUED"),
        ("recorded_at", .str "2020-01-01T00:00:00Z")])) = true ∧
     truthyOpt (sigValOf (.obj [("event_id", .str "e1"), ("event_hash", .str "h1"),
        ("event_type", .str "ATTESTATION_ISSUED"),
        ("recorded_at", .str "2020-01-01T00:00:00Z")])) = false ∧
     truthyOpt ((policyOf (.obj [("policy", .obj [("signature_required", .bool true)])])).get
        "signature_required") = true) ∧
    (verify_chain (.obj [("policy", .obj [("signature_required", .bool true)])])
        (.obj [("events", .arr [.obj [("event_id", .str "e1"), ("event_hash", .str "h1"),
          ("event_type", .str "ATTESTATION_ISSUED"),
          ("recorded_at", .str "2020-01-01T00:00:00Z")]])]) 0).map (·.verdict) =
      .ok "VERIFIED" ∧
    ("VERIFIED" : String) ≠ "POLICY_VIOLATION" :=
  ⟨⟨rfl, rfl, rfl⟩, rfl, by decide⟩

/-- Witness for the amended C3 at a concrete full-payload attestation
event whose declared hash matches its recomputation. -/
theorem c3_policy_violation_witness :
    compute_event_hash (Json.obj [("event_id", .str "e1"), ("issuer", .str "i"),
        ("canonicalization", .str "c"), ("artifact", .str "a"),
        ("event_type", .str "ATTESTATION_ISSUED"),
        ("event_hash", .str (compute_event_hash [("event_id", .str "e1"), ("issuer", .str "i"),
          ("canonicalization", .str "c"), ("artifact", .str "a"),
          ("event_type", .str "ATTESTATION_ISSUED")]))]).fields =
      eventHashOf (Json.obj [("event_id", .str "e1"), ("issuer", .str "i"),
        ("canonicalization", .str "c"), ("artifact", .str "a"),
        ("event_type", .str "ATTESTATION_ISSUED"),
        ("event_hash", .str (compute_event_hash [("event_id", .str "e1"), ("issuer", .str "i"),
          ("canonicalization", .str "c"), ("artifact", .str "a"),
          ("event_type", .str "ATTESTATION_ISSUED")]))]) ∧
    chainWalk true false false 0
      [Json.obj [("event_id", .str "e1"), ("issuer", .str "i"),
        ("canonicalization", .str "c"), ("artifact", .str "a"),
        ("event_type", .str "ATTESTATION_ISSUED"),
        ("event_hash", .str (compute_event_hash [("event_id", .str "e1"), ("issuer", .str "i"),
          ("canonicalization", .str "c"), ("artifact", .str "a"),
          ("event_type", .str "ATTESTATION_ISSUED")]))]] 0 none none [] =
      ⟨VERDICT_POLICY_VIOLATION, ["signature missing for required event e1"], 1, none⟩ :=
  ⟨rfl,
   c3_policy_violation false false 0
     (Json.obj [("event_id", .str "e1"), ("issuer", .str "i"),
       ("canonicalization", .str "c"), ("artifact", .str "a"),
       ("event_type", .str "ATTESTATION_ISSUED"),
       ("event_hash", .str (compute_event_hash [("event_id", .str "e1"), ("issuer", .str "i"),
         ("canonicalization", .str "c"), ("artifact", .str "a"),
         ("event_type", .str "ATTESTATION_ISSUED")]))])
     [] 0 none none [] rfl rfl rfl rfl rfl rfl rfl rfl⟩

/-- C5 (amended): when the first event in canonical order of a chain of
object events has a `prev_event_hash` outside the null-ish sentinels
accepted by the code (absent, JSON null, the empty string, or the literal
string "null"), `verify_chain` returns INVALID_CHAIN. -/
theorem c5_genesis_invalid (d c : Json) (t : Int) (l : List Json) (g : Json)
    (rest : List Json)
    (hev : c.get "events" = some (.arr l))
    (hobjs : ∀ e ∈ l, e.isObj = true)
    (hd : d.isObj = true)
    (hsort : sortedEvents l = g :: rest)
    (hgen : isNullishPrev (g.get "prev_event_hash") = false) :
    (verify_chain d c t).map (·.verdict) = .ok VERDICT_INVALID_CHAIN := by
  have hobj := get_some_isObj hev
  have hne : l.isEmpty = false := by
    cases l with
    | nil => simp [sortedEvents] at hsort
    | cons a as => rfl
  have hany : (l.any fun e => !e.isObj) = false := by
    rw [List.any_eq_false]
    intro x hx
    simp [hobjs x hx]
  have hg : g.isObj = true :=
    hobjs g ((sortedEvents_perm l).subset (hsort ▸ List.mem_cons_self g rest))
  simp only [verify_chain, hobj, hev, hne, hany, hd, Bool.not_true, Bool.false_eq_true,
    if_false, if_true, hsort]
  by_cases hids : (eventIdOf g == "" || eventHashOf g == "") = true
  · simp [chainWalk, hg, hids, Except.map]
  · simp [chainWalk, hg, hids, hgen, Except.map]

/-- Counterexample to C5 as stated: an empty-string `prev_event_hash` is a
non-null value, yet the genesis check accepts it and the chain verifies. -/
theorem c5_counterexample :
    ((Json.obj [("event_id", .str "e1"), ("event_hash", .str "h1"),
        ("prev_event_hash", .str "")]).get "prev_event_hash" = some (.str "") ∧
      Json.str "" ≠ Json.null) ∧
    (verify_chain (.obj []) (.obj [("events", .arr [.obj [("event_id", .str "e1"),
        ("event_hash", .str "h1"), ("prev_event_hash", .str "")]])]) 0).map (·.verdict) =
      .ok "VERIFIED" ∧
    ("VERIFIED" : String) ≠ "INVALID_CHAIN" :=
  ⟨⟨rfl, fun h => Json.noConfusion h⟩, rfl, by decide⟩

/-- Witness for the amended C5 at a one-event chain whose genesis carries
a real previous hash. -/
theorem c5_genesis_invalid_witness :
    sortedEvents [Json.obj [("event_id", .str "e1"), ("event_hash", .str "h1"),
        ("prev_event_hash", .str "x")]] =
      [Json.obj [("event_id", .str "e1"), ("event_hash", .str "h1"),
        ("prev_event_hash", .str "x")]] ∧
    (verify_chain (.obj []) (.obj [("events", .arr [.obj [("event_id", .str "e1"),
        ("event_hash", .str "h1"), ("prev_event_hash", .str "x")]])]) 0).map (·.verdict) =
      .ok VERDICT_INVALID_CHAIN :=
  ⟨rfl,
   c5_genesis_invalid (Json.obj [])
     (.obj [("events", .arr [.obj [("event_id", .str "e1"), ("event_hash", .str "h1"),
       ("prev_event_hash", .str "x")]])]) 0
     [.obj [("event_id", .str "e1"), ("event_hash", .str "h1"), ("prev_event_hash", .str "x")]]
     (.obj [("event_id", .str "e1"), ("event_hash", .str "h1"), ("prev_event_hash", .str "x")])
     [] rfl
     (by intro e he; rw [List.mem_singleton] at he; subst he; rfl)
     rfl rfl rfl⟩

/-- C6 (amended): the timestamp check is reached only when both
`effective_at` and `recorded_at` are truthy, and it is short-circuited:
a malformed `effective_at` yields INVALID_INPUT at that event, while a
malformed `recorded_at` yields INVALID_INPUT only when `effective_at`
parsed and is at most the evaluation time.  (A malformed `recorded_at`
with absent/falsy `effective_at`, or with `effective_at` after the
evaluation time, goes undetected.) -/
theorem c6_bad_timestamp (sq tq trq : Bool) (t : Int) (evt : Json) (rest : List Json)
    (index : Nat) (ph act : Option String) (errs : List String)
    (hobj : evt.isObj = true)
    (hids : (eventIdOf evt == "" || eventHashOf evt == "") = false)
    (hgen : (index == 0 && !isNullishPrev (evt.get "prev_event_hash")) = false)
    (hprev : (index != 0 && !prevMatches (evt.get "prev_event_hash") ph) = false)
    (hhash : (fullPayloadOf evt && !(compute_event_hash evt.fields == eventHashOf evt)) = false)
    (hsig : (fullPayloadOf evt && isAttestationType (eventTypeOf evt) && sq
      && !truthyOpt (sigValOf evt)) = false)
    (hts : (fullPayloadOf evt && isAttestationType (eventTypeOf evt) && tq
      && !truthyOpt (tsValOf evt)) = false)
    (htr : (fullPayloadOf evt && isAttestationType (eventTypeOf evt) && trq
      && !truthyOpt (trValOf evt)) = false)
    (hboth : (truthyOpt (evt.get "effective_at") && truthyOpt (evt.get "recorded_at")) = true) :
    (∀ e, parse_utc_or_die (pyStr ((evt.get "effective_at").getD .null)) = .error e →
      chainWalk sq tq trq t (evt :: rest) index ph act errs =
        ⟨VERDICT_INVALID_INPUT, [e], index + 1, none⟩) ∧
    (∀ v e, parse_utc_or_die (pyStr ((evt.get "effective_at").getD .null)) = .ok v →
      v ≤ t →
      parse_utc_or_die (pyStr ((evt.get "recorded_at").getD .null)) = .error e →
      chainWalk sq tq trq t (evt :: rest) index ph act errs =
        ⟨VERDICT_INVALID_INPUT, [e], index + 1, none⟩) := by
  constructor
  · intro e hpe
    simp [chainWalk, hobj, hids, hgen, hprev, hhash, hsig, hts, htr, hboth, hpe]
  · intro v e hpe hle hpr
    simp [chainWalk, hobj, hids, hgen, hprev, hhash, hsig, hts, htr, hboth, hpe, hle, hpr]

/-- Counterexample to C6 as stated: a present but malformed `recorded_at`
is never parsed when `effective_at` is after the evaluation time — the
chain verifies instead of failing with INVALID_INPUT. -/
theorem c6_counterexample :
    (truthyOpt ((Json.obj [("event_id", .str "e1"), ("event_hash", .str "h1"),
        ("effective_at", .str "2021-01-01T00:00:00Z"),
        ("recorded_at", .str "not-a-date")]).get "recorded_at") = true ∧
      (parse_utc_or_die "not-a-date").isOk = false) ∧
    (verify_chain (.obj []) (.obj [("events", .arr [.obj [("event_id", .str "e1"),
        ("event_hash", .str "h1"), ("effective_at", .str "2021-01-01T00:00:00Z"),
        ("recorded_at", .str "not-a-date")]])]) 0).map (·.verdict) = .ok "VERIFIED" ∧
    ("VERIFIED" : String) ≠ "INVALID_INPUT" :=
  ⟨⟨rfl, rfl⟩, rfl, by decide⟩

/-- Witness for the amended C6 at a concrete event with a malformed
`effective_at`. -/
theorem c6_bad_timestamp_witness :
    parse_utc_or_die (pyStr (((Json.obj [("event_id", .str "e1"), ("event_hash", .str "h1"),
        ("effective_at", .str "garbage"),
        ("recorded_at", .str "2020-01-01T00:00:00Z")]).get "effective_at").getD .null)) =
      .error "invalid RFC3339 timestamp: garbage" ∧
    chainWalk false false false 0
      [Json.obj [("event_id", .str "e1"), ("event_hash", .str "h1"),
        ("effective_at", .str "garbage"), ("recorded_at", .str "2020-01-01T00:00:00Z")]]
      0 none none [] =
      ⟨VERDICT_INVALID_INPUT, ["invalid RFC3339 timestamp: garbage"], 1, none⟩ :=
  ⟨rfl,
   (c6_bad_timestamp false false false 0
     (Json.obj [("event_id", .str "e1"), ("event_hash", .str "h1"),
       ("effective_at", .str "garbage"), ("recorded_at", .str "2020-01-01T00:00:00Z")])
     [] 0 none none [] rfl rfl rfl rfl rfl rfl rfl rfl rfl).1
     "invalid RFC3339 timestamp: garbage" rfl⟩

theorem bool_eq_false {b : Bool} (h : ¬(b = true)) : b = false := by
  cases b with
  | true => exact absurd rfl h
  | false => rfl

/-- The timestamp check of vp_verify.py lines 223-230 raises at the
current event: both fields truthy, and either `effective_at` is
malformed, or it parses to at most the evaluation time and `recorded_at`
is malformed (the short-circuit of the `and`). -/
def timestampCheckFails (t : Int) (evt : Json) : Bool :=
  (truthyOpt (evt.get "effective_at") && truthyOpt (evt.get "recorded_at")) &&
  (match parse_utc_or_die (pyStr ((evt.get "effective_at").getD .null)) with
   | .error _ => true
   | .ok v =>
     decide (v ≤ t) &&
       (match parse_utc_or_die (pyStr ((evt.get "recorded_at").getD .null)) with
        | .error _ => true
        | .ok _ => false))

/-- Some fatal per-event check beyond the id/hash-presence check fires at
the current event (vp_verify.py lines 170-230): genesis prev violation,
prev-hash mismatch, recomputed-hash mismatch, a missing policy-required
field on a full-payload attestation event, or a timestamp failure. -/
def failsStep (sq tq trq : Bool) (t : Int) (index : Nat) (ph : Option String)
    (evt : Json) : Bool :=
  (index == 0 && !isNullishPrev (evt.get "prev_event_hash"))
  || (index != 0 && !prevMatches (evt.get "prev_event_hash") ph)
  || (fullPayloadOf evt && !(compute_event_hash evt.fields == eventHashOf evt))
  || (fullPayloadOf evt && isAttestationType (eventTypeOf evt) && sq
      && !truthyOpt (sigValOf evt))
  || (fullPayloadOf evt && isAttestationType (eventTypeOf evt) && tq
      && !truthyOpt (tsValOf evt))
  || (fullPayloadOf evt && isAttestationType (eventTypeOf evt) && trq
      && !truthyOpt (trValOf evt))
  || timestampCheckFails t evt

/-- C10: an event failing the object / id / hash presence checks is not
counted in `checked_events` (the loop returns the bare index), while
every other per-event failure counts it (index + 1). -/
theorem c10_checked_events (sq tq trq : Bool) (t : Int) (evt : Json) (rest : List Json)
    (index : Nat) (ph act : Option String) (errs : List String) :
    ((!evt.isObj || (eventIdOf evt == "" || eventHashOf evt == "")) = true →
      (chainWalk sq tq trq t (evt :: rest) index ph act errs).checked_events = index) ∧
    (evt.isObj = true → (eventIdOf evt == "" || eventHashOf evt == "") = false →
      failsStep sq tq trq t index ph evt = true →
      (chainWalk sq tq trq t (evt :: rest) index ph act errs).checked_events = index + 1) := by
  constructor
  · intro h
    by_cases hobj : (!evt.isObj) = true
    · simp [chainWalk, hobj]
    · have hids : (eventIdOf evt == "" || eventHashOf evt == "") = true := by
        rcases Bool.or_eq_true_iff.mp h with h' | h'
        · exact absurd h' hobj
        · exact h'
      simp [chainWalk, hobj, hids]
  · intro hobj hids hfail
    by_cases h3 : (index == 0 && !isNullishPrev (evt.get "prev_event_hash")) = true
    · simp [chainWalk, hobj, hids, h3]
    by_cases h4 : (index != 0 && !prevMatches (evt.get "prev_event_hash") ph) = true
    · simp [chainWalk, hobj, hids, h3, h4]
    by_cases h5 : (fullPayloadOf evt && !(compute_event_hash evt.fields == eventHashOf evt)) = true
    · simp [chainWalk, hobj, hids, h3, h4, h5]
    by_cases h6 : (fullPayloadOf evt && isAttestationType (eventTypeOf evt) && sq
        && !truthyOpt (sigValOf evt)) = true
    · simp [chainWalk, hobj, hids, h3, h4, h5, h6]
    by_cases h7 : (fullPayloadOf evt && isAttestationType (eventTypeOf evt) && tq
        && !truthyOpt (tsValOf evt)) = true
    · simp [chainWalk, hobj, hids, h3, h4, h5, h6, h7]
    by_cases h8 : (fullPayloadOf evt && isAttestationType (eventTypeOf evt) && trq
        && !truthyOpt (trValOf evt)) = true
    · simp [chainWalk, hobj, hids, h3, h4, h5, h6, h7, h8]
    have hts : timestampCheckFails t evt = true := by
      by_contra hc
      simp [failsStep, bool_eq_false h3, bool_eq_false h4, bool_eq_false h5,
        bool_eq_false h6, bool_eq_false h7, bool_eq_false h8, bool_eq_false hc] at hfail
    have hboth : (truthyOpt (evt.get "effective_at") && truthyOpt (evt.get "recorded_at")) = true := by
      simp only [timestampCheckFails, Bool.and_eq_true] at hts
      simp [hts.1.1, hts.1.2]
    cases hpe : parse_utc_or_die (pyStr ((evt.get "effective_at").getD .null)) with
    | error e => simp [chainWalk, hobj, hids, h3, h4, h5, h6, h7, h8, hboth, hpe]
    | ok v =>
      simp only [timestampCheckFails, hboth, hpe, Bool.true_and, Bool.and_eq_true,
        decide_eq_true_eq] at hts
      have hle : v ≤ t := hts.1
      cases hpr : parse_utc_or_die (pyStr ((evt.get "recorded_at").getD .null)) with
      | error e => simp [chainWalk, hobj, hids, h3, h4, h5, h6, h7, h8, hboth, hpe, hle, hpr]
      | ok w =>
        rw [hpr] at hts
        simp at hts

/-- Witness for C10: a walk state where a missing `event_id` reports the
bare index (3), and one where a genesis `prev_event_hash` violation
reports index + 1. -/
theorem c10_checked_events_witness :
    ((!(Json.obj [("event_hash", .str "h")]).isObj
        || (eventIdOf (.obj [("event_hash", .str "h")]) == ""
            || eventHashOf (.obj [("event_hash", .str "h")]) == "")) = true ∧
      (chainWalk false false false 0 [.obj [("event_hash", .str "h")]]
        3 (some "p") none []).checked_events = 3) ∧
    (failsStep false false false 0 0 none (.obj [("event_id", .str "e"),
        ("event_hash", .str "h"), ("prev_event_hash", .str "x")]) = true ∧
      (chainWalk false false false 0 [.obj [("event_id", .str "e"),
        ("event_hash", .str "h"), ("prev_event_hash", .str "x")]]
        0 none none []).checked_events = 0 + 1) :=
  ⟨⟨rfl, (c10_checked_events false false false 0 (.obj [("event_hash", .str "h")]) []
      3 (some "p") none []).1 rfl⟩,
   ⟨rfl, (c10_checked_events false false false 0 (.obj [("event_id", .str "e"),
      ("event_hash", .str "h"), ("prev_event_hash", .str "x")]) [] 0 none none []).2
      rfl rfl rfl⟩⟩

/-- C1 (code bug): both top-level operations can let an exception escape
instead of returning a verdict.  `verify_remote_artifact` propagates the
`ValueError` of `canonicalize_artifact_url(url)` (vp_verify.py line 240,
outside any `try`), and `verify_chain` propagates the `AttributeError`
raised when `sorted`'s key function hits a non-dict event (line 151,
before the loop's own `isinstance` check). -/
theorem c1_uncaught_exceptions :
    verify_remote_artifact (fun _ _ => .httpError 404) "nohost" 10 0 =
      .error "URL must include scheme and host" ∧
    verify_chain (.obj []) (.obj [("events", .arr [.str "x"])]) 0 =
      .error "AttributeError: event is not a dict" :=
  ⟨rfl, rfl⟩

/-- C9 (code bug): URL canonicalization is not idempotent.  A bracketed
IPv6 host has its brackets dropped when the netloc is rebuilt (vp_verify.py
line 69 uses `parsed.hostname`), so the first pass succeeds but its own
output no longer parses — the second pass raises instead of being a
no-op. -/
theorem c9_not_idempotent :
    canonicalize_artifact_url "http://[::1]/a" = .ok "http://::1/a" ∧
    canonicalize_artifact_url "http://::1/a" = .error "URL host is missing" ∧
    canonicalize_artifact_url "http://::1/a" ≠ .ok "http://::1/a" :=
  ⟨rfl, rfl, fun h => Except.noConfusion (rfl.trans h)⟩

/-- C8: `compute_event_hash` is by construction the SHA-256 hex digest of
the canonical JSON of the event with its own `event_hash` entry removed;
hence it is deterministic and independent of the stored `event_hash`
value — any two events that agree after that removal hash identically. -/
theorem c8_event_hash :
    (∀ fields : List (String × Json),
      compute_event_hash fields =
        sha256_hex (utf8Bytes (canonicalJson (.obj (eraseField fields "event_hash"))))) ∧
    (∀ f₁ f₂ : List (String × Json),
      eraseField f₁ "event_hash" = eraseField f₂ "event_hash" →
      compute_event_hash f₁ = compute_event_hash f₂) :=
  ⟨fun _ => rfl, fun _ _ h => by simp [compute_event_hash, h]⟩

/-- Witness for C8 at two concrete events differing only in their
`event_hash` field. -/
theorem c8_event_hash_witness :
    eraseField [("event_id", Json.str "e"), ("event_hash", Json.str "h1")] "event_hash" =
      eraseField [("event_id", Json.str "e"), ("event_hash", Json.str "h2")] "event_hash" ∧
    compute_event_hash [("event_id", Json.str "e"), ("event_hash", Json.str "h1")] =
      compute_event_hash [("event_id", Json.str "e"), ("event_hash", Json.str "h2")] :=
  ⟨rfl, c8_event_hash.2 [("event_id", Json.str "e"), ("event_hash", Json.str "h1")]
    [("event_id", Json.str "e"), ("event_hash", Json.str "h2")] rfl⟩

/-- Counterexample to C2 as stated: two events sharing the same
`(recorded_at, event_id)` sort key keep their input order under Python's
stable sort, so permuting them changes which event is treated as genesis
— one order verifies, the other is an invalid chain. -/
theorem c2_counterexample :
    [Json.obj [("event_id", .str "e"), ("event_hash", .str "h1"),
        ("recorded_at", .str "2020")],
      Json.obj [("event_id", .str "e"), ("event_hash", .str "h2"),
        ("prev_event_hash", .str "h1"), ("recorded_at", .str "2020")]].Perm
      [Json.obj [("event_id", .str "e"), ("event_hash", .str "h2"),
        ("prev_event_hash", .str "h1"), ("recorded_at", .str "2020")],
       Json.obj [("event_id", .str "e"), ("event_hash", .str "h1"),
        ("recorded_at", .str "2020")]] ∧
    (verify_chain (.obj []) (.obj [("events", .arr
        [.obj [("event_id", .str "e"), ("event_hash", .str "h1"),
          ("recorded_at", .str "2020")],
         .obj [("event_id", .str "e"), ("event_hash", .str "h2"),
          ("prev_event_hash", .str "h1"), ("recorded_at", .str "2020")]])]) 0).map
      (·.verdict) = .ok "VERIFIED" ∧
    (verify_chain (.obj []) (.obj [("events", .arr
        [.obj [("event_id", .str "e"), ("event_hash", .str "h2"),
          ("prev_event_hash", .str "h1"), ("recorded_at", .str "2020")],
         .obj [("event_id", .str "e"), ("event_hash", .str "h1"),
          ("recorded_at", .str "2020")]])]) 0).map (·.verdict) = .ok "INVALID_CHAIN" :=
  ⟨List.Perm.swap _ _ _, rfl, rfl⟩

/-- C2 (amended): permuting the input event array never changes the
result — verdict included — provided the events' `(recorded_at,
event_id)` sort keys are pairwise distinct; with duplicate keys the
stable sort preserves input order, so the verdict may depend on it. -/
theorem c2_perm_invariant (d c₁ c₂ : Json) (t : Int) (l₁ l₂ : List Json)
    (h₁ : c₁.get "events" = some (.arr l₁)) (h₂ : c₂.get "events" = some (.arr l₂))
    (hp : l₁.Perm l₂) (hnd : (l₁.map event_key).Nodup) :
    verify_chain d c₁ t = verify_chain d c₂ t := by
  have ho₁ : c₁.isObj = true := get_some_isObj h₁
  have ho₂ : c₂.isObj = true := get_some_isObj h₂
  have hie : l₁.isEmpty = l₂.isEmpty := hp.isEmpty_eq
  have hany : (l₁.any fun e => !e.isObj) = (l₂.any fun e => !e.isObj) :=
    perm_any_eq hp _
  simp only [verify_chain, ho₁, ho₂, h₁, h₂, hie, hany,
    sortedEvents_eq_of_perm hp hnd]

/-- Witness for the amended C2: swapping two events with distinct sort
keys leaves the result unchanged. -/
theorem c2_perm_invariant_witness :
    ([Json.obj [("event_id", .str "a"), ("event_hash", .str "h1"),
        ("recorded_at", .str "2020")],
      Json.obj [("event_id", .str "b"), ("event_hash", .str "h2"),
        ("prev_event_hash", .str "h1"), ("recorded_at", .str "2021")]].Perm
      [Json.obj [("event_id", .str "b"), ("event_hash", .str "h2"),
        ("prev_event_hash", .str "h1"), ("recorded_at", .str "2021")],
       Json.obj [("event_id", .str "a"), ("event_hash", .str "h1"),
        ("recorded_at", .str "2020")]] ∧
     ([Json.obj [("event_id", .str "a"), ("event_hash", .str "h1"),
        ("recorded_at", .str "2020")],
       Json.obj [("event_id", .str "b"), ("event_hash", .str "h2"),
        ("prev_event_hash", .str "h1"), ("recorded_at", .str "2021")]].map
        event_key).Nodup) ∧
    verify_chain (.obj []) (.obj [("events", .arr
        [.obj [("event_id", .str "a"), ("event_hash", .str "h1"),
          ("recorded_at", .str "2020")],
         .obj [("event_id", .str "b"), ("event_hash", .str "h2"),
          ("prev_event_hash", .str "h1"), ("recorded_at", .str "2021")]])]) 0 =
      verify_chain (.obj []) (.obj [("events", .arr
        [.obj [("event_id", .str "b"), ("event_hash", .str "h2"),
          ("prev_event_hash", .str "h1"), ("recorded_at", .str "2021")],
         .obj [("event_id", .str "a"), ("event_hash", .str "h1"),
          ("recorded_at", .str "2020")]])]) 0 :=
  ⟨⟨List.Perm.swap _ _ _, by decide⟩,
   c2_perm_invariant (Json.obj [])
     (.obj [("events", .arr
       [.obj [("event_id", .str "a"), ("event_hash", .str "h1"),
         ("recorded_at", .str "2020")],
        .obj [("event_id", .str "b"), ("event_hash", .str "h2"),
         ("prev_event_hash", .str "h1"), ("recorded_at", .str "2021")]])])
     (.obj [("events", .arr
       [.obj [("event_id", .str "b"), ("event_hash", .str "h2"),
         ("prev_event_hash", .str "h1"), ("recorded_at", .str "2021")],
        .obj [("event_id", .str "a"), ("event_hash", .str "h1"),
         ("recorded_at", .str "2020")]])]) 0
     [.obj [("event_id", .str "a"), ("event_hash", .str "h1"),
       ("recorded_at", .str "2020")],
      .obj [("event_id", .str "b"), ("event_hash", .str "h2"),
       ("prev_event_hash", .str "h1"), ("recorded_at", .str "2021")]]
     [.obj [("event_id", .str "b"), ("event_hash", .str "h2"),
       ("prev_event_hash", .str "h1"), ("recorded_at", .str "2021")],
      .obj [("event_id", .str "a"), ("event_hash", .str "h1"),
       ("recorded_at", .str "2020")]]
     rfl rfl (List.Perm.swap _ _ _) (by decide)⟩

/-- C7 (amended): on the legacy manifest path with `signature_required`
truthy and a structurally valid manifest, `verify_remote_artifact` never
returns VERIFIED: a truthy `signature.value` yields UNVERIFIABLE, and an
absent or falsy one (Python truthiness — an empty string counts as
missing) yields POLICY_VIOLATION. -/
theorem c7_legacy_signature (fetch : String → Nat → FetchResult) (url : String)
    (timeout : Nat) (t : Int) (cu : String) (sp : SplitResult) (doc manifest : Json)
    (hcu : canonicalize_artifact_url url = .ok cu)
    (hsp : urlsplit cu = .ok sp)
    (hdoc : fetch ("https://" ++ sp.netloc ++ "/.well-known/provenance") timeout = .ok doc)
    (hobj : doc.isObj = true)
    (hlegacy : (strStartsWith (pyStr (doc.getD "spec_version" (.str "1.0"))) "1.1"
      && isObjOpt (doc.get "evidence_api")) = false)
    (hman : fetch (cu ++ suffixOf doc) timeout = .ok manifest)
    (hmobj : manifest.isObj = true)
    (hmcu : canonicalize_artifact_url (pyStr (manifest.getD "artifact_url" (.str ""))) = .ok cu)
    (hhex : isHex64 (pyStrip (pyStr (manifest.getD "content_sha256" (.str "")))) = true)
    (hsigreq : truthyOpt ((policyOf doc).get "signature_required") = true) :
    (verify_remote_artifact fetch url timeout t).map (·.verdict) =
      .ok (if truthyOpt (subDictGet (manifest.get "signature") "value")
        then VERDICT_UNVERIFIABLE else VERDICT_POLICY_VIOLATION) ∧
    (if truthyOpt (subDictGet (manifest.get "signature") "value")
      then VERDICT_UNVERIFIABLE else VERDICT_POLICY_VIOLATION) ≠ VERDICT_VERIFIED := by
  constructor
  · simp only [verify_remote_artifact, hcu, hsp, hdoc, hobj, hlegacy, hman, hmobj, hmcu,
      Bool.not_true, Bool.false_eq_true, if_false]
    by_cases hsv : truthyOpt (subDictGet (manifest.get "signature") "value") = true
    · simp [hsv, hhex, hsigreq, Except.map]
    · simp [bool_eq_false hsv, hhex, hsigreq, Except.map]
  · by_cases hsv : truthyOpt (subDictGet (manifest.get "signature") "value") = true
    · simp [hsv, VERDICT_UNVERIFIABLE, VERDICT_VERIFIED]
    · simp [bool_eq_false hsv, VERDICT_POLICY_VIOLATION, VERDICT_VERIFIED]

/-- Counterexample to C7 as stated: a manifest whose `signature.value` is
present but empty is treated as missing (Python truthiness), so the code
returns POLICY_VIOLATION where the claim predicts UNVERIFIABLE. -/
theorem c7_counterexample :
    subDictGet ((Json.obj [("artifact_url", .str "https://example.com/a"),
        ("content_sha256",
          .str "aaaaaaaaaaaaaaaaaaaaaaaaaaaaaaaaaaaaaaaaaaaaaaaaaaaaaaaaaaaaaaaa"),
        ("signature", .obj [("value", .str "")])]).get "signature") "value" =
      some (.str "") ∧
    (verify_remote_artifact
      (fun u _ =>
        if u = "https://example.com/.well-known/provenance" then
          .ok (.obj [("policy", .obj [("signature_required", .bool true)])])
        else if u = "https://example.com/a.provenance.json" then
          .ok (.obj [("artifact_url", .str "https://example.com/a"),
            ("content_sha256",
              .str "aaaaaaaaaaaaaaaaaaaaaaaaaaaaaaaaaaaaaaaaaaaaaaaaaaaaaaaaaaaaaaaa"),
            ("signature", .obj [("value", .str "")])])
        else .httpError 404)
      "https://example.com/a" 10 0).map (·.verdict) = .ok "POLICY_VIOLATION" ∧
    ("POLICY_VIOLATION" : String) ≠ "UNVERIFIABLE" :=
  ⟨rfl, rfl, by decide⟩

/-- Witness for the amended C7 at a concrete oracle whose manifest carries
a nonempty signature value: UNVERIFIABLE, never VERIFIED. -/
theorem c7_legacy_signature_witness :
    (verify_remote_artifact
      (fun u _ =>
        if u = "https://example.com/.well-known/provenance" then
          .ok (.obj [("policy", .obj [("signature_required", .bool true)])])
        else if u = "https://example.com/a.provenance.json" then
          .ok (.obj [("artifact_url", .str "https://example.com/a"),
            ("content_sha256",
              .str "aaaaaaaaaaaaaaaaaaaaaaaaaaaaaaaaaaaaaaaaaaaaaaaaaaaaaaaaaaaaaaaa"),
            ("signature", .obj [("value", .str "sig")])])
        else .httpError 404)
      "https://example.com/a" 10 0).map (·.verdict) =
      .ok (if truthyOpt (subDictGet ((Json.obj [("artifact_url", .str "https://example.com/a"),
            ("content_sha256",
              .str "aaaaaaaaaaaaaaaaaaaaaaaaaaaaaaaaaaaaaaaaaaaaaaaaaaaaaaaaaaaaaaaa"),
            ("signature", .obj [("value", .str "sig")])]).get "signature") "value")
        then VERDICT_UNVERIFIABLE else VERDICT_POLICY_VIOLATION) ∧
    (if truthyOpt (subDictGet ((Json.obj [("artifact_url", .str "https://example.com/a"),
          ("content_sha256",
            .str "aaaaaaaaaaaaaaaaaaaaaaaaaaaaaaaaaaaaaaaaaaaaaaaaaaaaaaaaaaaaaaaa"),
          ("signature", .obj [("value", .str "sig")])]).get "signature") "value")
      then VERDICT_UNVERIFIABLE else VERDICT_POLICY_VIOLATION) ≠ VERDICT_VERIFIED :=
  c7_legacy_signature
    (fun u _ =>
      if u = "https://example.com/.well-known/provenance" then
        .ok (.obj [("policy", .obj [("signature_required", .bool true)])])
      else if u = "https://example.com/a.provenance.json" then
        .ok (.obj [("artifact_url", .str "https://example.com/a"),
          ("content_sha256",
            .str "aaaaaaaaaaaaaaaaaaaaaaaaaaaaaaaaaaaaaaaaaaaaaaaaaaaaaaaaaaaaaaaa"),
          ("signature", .obj [("value", .str "sig")])])
      else .httpError 404)
    "https://example.com/a" 10 0 "https://example.com/a"
    ⟨"https", "example.com", "/a", "", ""⟩
    (.obj [("policy", .obj [("signature_required", .bool true)])])
    (.obj [("artifact_url", .str "https://example.com/a"),
      ("content_sha256",
        .str "aaaaaaaaaaaaaaaaaaaaaaaaaaaaaaaaaaaaaaaaaaaaaaaaaaaaaaaaaaaaaaaa"),
      ("signature", .obj [("value", .str "sig")])])
    rfl rfl rfl rfl rfl rfl rfl rfl rfl rfl

example : canonicalize_artifact_url "https://User:pw@Host.com:8443/p" =
    .ok "https://User:pw@host.com:8443/p" := rfl

example :
    verify_remote_artifact
      (fun u _ =>
        if u = "https://example.com/.well-known/provenance" then
          .ok (.obj [("spec_version", .str "1.1"),
            ("evidence_api", .obj [("events_by_artifact",
              .str "https://example.com/events?a=\x7bartifact_url\x7d")])])
        else if u = "https://example.com/events?a=https%3A%2F%2Fexample.com%2Fa" then
          .ok (.arr [.obj [("event_id", .str "e1"), ("event_hash", .str "h1")]])
        else .httpError 404)
      "https://example.com/a" 10 0 =
    .ok ⟨"VERIFIED", [], 1, none⟩ := rfl
